import Mathlib

/-!
# IronDB backend: the Auth Gate, the protected endpoints, the sign-in, the worker

A shallow embedding of `src/backend/server.js` and `src/backend/worker.js`.
The handlers are written in an effect monad `Eff` that threads a `World`: the
log of the calls made to the outside (token library, database pool, job
queue, clock, console, HTTP response) and the response's status code.  What
the outside answers is a parameter (`Env`, `Runtime`): each answer may depend
on the arguments and on everything that happened before.
-/

namespace IronDB

/-! ## JavaScript values -/

/-- The JavaScript values the backend handles: JSON data and `undefined`.
Numbers are the integer-valued ones (clock readings, row counts, type ids):
`num n` is the double of value `n`.  Every integer of magnitude below 2^53 is
a double; the code modelled here looks at a number only through its
truthiness and, in a log line, through its text (`toText`). -/
inductive JsVal where
  | undefined
  | null
  | bool (b : Bool)
  | num (n : Int)
  | str (s : String)
  | arr (xs : List JsVal)
  /-- An object, as the list of its own properties; `lookup` reads the first
  binding of a name. -/
  | obj (props : List (String × JsVal))

namespace JsVal

instance : Inhabited JsVal := ⟨undefined⟩

/-- ToBoolean: what `if (v)`, `!v` and `v || d` test. -/
def truthy : JsVal → Bool
  | undefined => false
  | null => false
  | bool b => b
  | num n => n != 0
  | str s => s != ""
  | arr _ => true
  | obj _ => true

/-- The value thrown by the runtime when a property of `undefined` or `null`
is read, or a non-function is called.  The message text is the engine's. -/
def typeError (msg : String) : JsVal :=
  obj [("name", str "TypeError"), ("message", str msg)]

/-- Own property lookup in a property list; an absent key reads `undefined`. -/
def lookup (k : String) : List (String × JsVal) → JsVal
  | [] => undefined
  | (k', v) :: rest => if k' = k then v else lookup k rest

/-- Property read `v.k` (also one name of a destructuring `const { k } = v`),
for the names this backend reads (`sql`, `params`, `taskType`, `payload`,
`rows`, `fields`, `rowCount`, `name`, `dataTypeID`, `message`, `id`, `email`,
`emails`, `value`, `table`, `functionName`), none of which a built-in
prototype defines: `undefined` and `null` throw, an object gives
its own property, any other value gives `undefined`. -/
def getProp (v : JsVal) (k : String) : Except JsVal JsVal :=
  match v with
  | undefined => .error (typeError ("Cannot read properties of undefined (reading " ++ k ++ ")"))
  | null => .error (typeError ("Cannot read properties of null (reading " ++ k ++ ")"))
  | obj props => .ok (lookup k props)
  | _ => .ok undefined

end JsVal

open JsVal

/-! ## Strings: `split` -/

/-- The pieces of a character list cut at every occurrence of `sep`
(`cur` holds the piece being read, reversed). -/
def splitAux (sep : Char) : List Char → List Char → List (List Char)
  | [], cur => [cur.reverse]
  | c :: cs, cur => if c = sep then cur.reverse :: splitAux sep cs [] else splitAux sep cs (c :: cur)

/-- The call `s.split(' ')` of JavaScript with a one-character separator: the
pieces between the separators, empty pieces kept. -/
def jsSplit (s : String) (sep : Char) : List String :=
  (splitAux sep s.data []).map String.mk

/-- Array indexing `xs[i]` on an array of strings: out of range is `undefined`. -/
def jsIndex (xs : List String) (i : Nat) : JsVal :=
  match xs.get? i with
  | some s => str s
  | none => undefined

/-! ## Effects -/

/-- A call the backend makes to the outside world. -/
inductive Event where
  /-- The call `jwt.verify(token, secret, callback)`. -/
  | jwtVerify (token secret : JsVal)
  /-- The call `pool.query(...args)` on the process-wide pool. -/
  | poolQuery (args : List JsVal)
  /-- The call `pool.connect()`. -/
  | poolConnect
  /-- The call `client.query(...args)` on a client taken from the pool. -/
  | clientQuery (args : List JsVal)
  /-- The call `client.release()`. -/
  | clientRelease
  /-- The call `jobQueue.add(...args)`; `queue` is the queue's name. -/
  | queueAdd (queue : String) (args : List JsVal)
  /-- The call `Date.now()` and the reading it gave. -/
  | dateNow (t : Int)
  /-- The call `res.json(body)`, sent with the status code then in force. -/
  | resJson (status : Nat) (body : JsVal)
  /-- The call `next()` of a middleware. -/
  | next
  /-- The call `jwt.sign(...args)`. -/
  | jwtSign (args : List JsVal)
  /-- The call `res.redirect(url)`. -/
  | resRedirect (url : String)
  /-- The call `cb(...args)` of the callback handed to the sign-in strategy. -/
  | cb (args : List JsVal)
  /-- The call `console.log(...args)`. -/
  | consoleLog (args : List JsVal)
  /-- The call `console.error(...args)`. -/
  | consoleError (args : List JsVal)
  /-- The wait `await new Promise(r => setTimeout(r, ms))`. -/
  | sleep (ms : Nat)

namespace Event

/-- Is the event a `jwt.verify` call? -/
def isJwtVerify : Event → Bool
  | jwtVerify _ _ => true
  | _ => false

/-- Is the event a `pool.query` call? -/
def isPoolQuery : Event → Bool
  | poolQuery _ => true
  | _ => false

/-- Is the event a call to the database (pool or client)? -/
def isDatabase : Event → Bool
  | poolQuery _ => true
  | poolConnect => true
  | clientQuery _ => true
  | _ => false

/-- Is the event a `jobQueue.add` call? -/
def isQueueAdd : Event → Bool
  | queueAdd _ _ => true
  | _ => false

/-- Is the event a response being sent? -/
def isResponse : Event → Bool
  | resJson _ _ => true
  | _ => false

/-- Is the event a `next()` call? -/
def isNext : Event → Bool
  | next => true
  | _ => false

end Event

/-- The state a handler runs in: the calls made so far, oldest first, and the
response's status code (`res.statusCode`, 200 on a fresh response). -/
structure World where
  trace : List Event
  statusCode : Nat

/-- A fresh response after the history `hist`. -/
def World.fresh (hist : List Event) : World := ⟨hist, 200⟩

/-- Append an event to the log. -/
def World.emit (w : World) (e : Event) : World := { w with trace := w.trace ++ [e] }

/-- How a piece of code ends: normally with a value, or by throwing (for an
async function: its promise is rejected). -/
inductive Outcome (α : Type) where
  | ok (a : α) (w : World)
  | threw (e : JsVal) (w : World)

/-- The world a run ends in. -/
def Outcome.world {α : Type} : Outcome α → World
  | .ok _ w => w
  | .threw _ w => w

/-- Did the run end by throwing? -/
def Outcome.isThrow {α : Type} : Outcome α → Bool
  | .ok _ _ => false
  | .threw _ _ => true

/-- Effectful code: a world in, an outcome out. -/
def Eff (α : Type) : Type := World → Outcome α

namespace Eff

/-- Return a value, no effect. -/
def ret {α : Type} (a : α) : Eff α := fun w => .ok a w

/-- Sequencing: a throw skips the rest. -/
def andThen {α β : Type} (m : Eff α) (f : α → Eff β) : Eff β := fun w =>
  match m w with
  | .ok a w' => f a w'
  | .threw e w' => .threw e w'

instance : Monad Eff where
  pure := ret
  bind := andThen

/-- The statement `throw e`. -/
def throw {α : Type} (e : JsVal) : Eff α := fun w => .threw e w

/-- The statement `try { body } catch (err) { handler }`. -/
def tryCatch {α : Type} (body : Eff α) (handler : JsVal → Eff α) : Eff α := fun w =>
  match body w with
  | .ok a w' => .ok a w'
  | .threw e w' => handler e w'

/-- Lift a pure computation that may throw. -/
def ofExcept {α : Type} : Except JsVal α → Eff α
  | .ok a => ret a
  | .error e => throw e

/-- The events a run adds to the log. -/
def emitted {α : Type} (m : Eff α) (w : World) : List Event :=
  (m w).world.trace.drop w.trace.length

end Eff

/-! ## The outside world -/

/-- What the outside answers.  Every answer may depend on the history. -/
structure Env where
  /-- The value of `process.env.JWT_SECRET`. -/
  jwtSecret : JsVal
  /-- The pair `(err, decoded)` that `jwt.verify(token, secret, cb)` hands to
  its callback, which it calls once. -/
  jwtVerify : List Event → JsVal → JsVal → JsVal × JsVal
  /-- The promise of `pool.query(...args)`: fulfilled with a result or
  rejected with an error. -/
  poolQuery : List Event → List JsVal → Except JsVal JsVal
  /-- The promise of `jobQueue.add(...args)`. -/
  queueAdd : List Event → List JsVal → Except JsVal JsVal
  /-- The reading of `Date.now()`. -/
  clock : List Event → Int

/-- The call `res.status(code)`. -/
def resStatus (code : Nat) : Eff Unit := fun w => .ok () { w with statusCode := code }

/-- The call `res.json(body)`. -/
def resJson (body : JsVal) : Eff Unit := fun w => .ok () (w.emit (.resJson w.statusCode body))

/-- The call `Date.now()`. -/
def dateNow (env : Env) : Eff Int := fun w =>
  .ok (env.clock w.trace) (w.emit (.dateNow (env.clock w.trace)))

/-- The call `jwt.verify(token, secret, cb)` up to the point where `cb` is
entered: gives the arguments `(err, decoded)` of `cb`. -/
def jwtVerify (env : Env) (token secret : JsVal) : Eff (JsVal × JsVal) := fun w =>
  .ok (env.jwtVerify w.trace token secret) (w.emit (.jwtVerify token secret))

/-- The expression `await pool.query(...args)`. -/
def poolQuery (env : Env) (args : List JsVal) : Eff JsVal := fun w =>
  match env.poolQuery w.trace args with
  | .ok r => .ok r (w.emit (.poolQuery args))
  | .error e => .threw e (w.emit (.poolQuery args))

/-- The expression `await jobQueue.add(...args)`, the queue being the one
created as `new Queue('irondb-jobs', ...)`. -/
def queueAdd (env : Env) (args : List JsVal) : Eff JsVal := fun w =>
  match env.queueAdd w.trace args with
  | .ok r => .ok r (w.emit (.queueAdd "irondb-jobs" args))
  | .error e => .threw e (w.emit (.queueAdd "irondb-jobs" args))

/-! ## The request -/

/-- The parts of an Express request the backend reads or writes. -/
structure Request where
  /-- The header `req.headers.authorization`: absent or a string. -/
  authorization : Option String
  /-- The parsed body `req.body`. -/
  body : JsVal
  /-- The property `req.user`. -/
  user : JsVal

/-! ## The Auth Gate (`requireAuth`, server.js 91-101) -/

/-- The expression `authHeader.split(' ')[1]`. -/
def bearerToken (authHeader : String) : JsVal := jsIndex (jsSplit authHeader ' ') 1

/-- The middleware `requireAuth(req, res, next)`. -/
def requireAuth (env : Env) (req : Request) (next : Request → Eff Unit) : Eff Unit :=
  match req.authorization with
  | none => do
      resStatus 401
      resJson (obj [("error", str "No token provided")])
  | some authHeader =>
    if authHeader = "" then do
      resStatus 401
      resJson (obj [("error", str "No token provided")])
    else do
      let token := bearerToken authHeader
      let (err, decoded) ← jwtVerify env token env.jwtSecret
      if err.truthy then do
        resStatus 403
        resJson (obj [("error", str "Invalid token")])
      else do
        let req := { req with user := decoded }
        fun w => next req (w.emit .next)

/-! ## The SQL Gateway (`POST /api/query`, server.js 107-127) -/

/-- The arrow function `f => ({ name: f.name, dataTypeID: f.dataTypeID })`. -/
def fieldPair (f : JsVal) : Except JsVal JsVal := do
  let name ← getProp f "name"
  let dataTypeID ← getProp f "dataTypeID"
  pure (obj [("name", name), ("dataTypeID", dataTypeID)])

/-- Apply `fn` to the elements in order; the first throw ends the loop. -/
def mapExcept (fn : JsVal → Except JsVal JsVal) : List JsVal → Except JsVal (List JsVal)
  | [] => .ok []
  | x :: xs =>
    match fn x with
    | .error e => .error e
    | .ok y =>
      match mapExcept fn xs with
      | .error e => .error e
      | .ok ys => .ok (y :: ys)

/-- The call `v.map(fn)`: among the values of `JsVal` only an array has a
`map` method. -/
def jsMap (v : JsVal) (fn : JsVal → Except JsVal JsVal) : Except JsVal JsVal :=
  match v with
  | arr xs =>
    match mapExcept fn xs with
    | .ok ys => .ok (arr ys)
    | .error e => .error e
  | undefined => .error (typeError "Cannot read properties of undefined (reading map)")
  | null => .error (typeError "Cannot read properties of null (reading map)")
  | _ => .error (typeError "map is not a function")

/-- The object literal handed to `res.json` on success, its properties
evaluated in source order. -/
def queryBody (result : JsVal) (duration : Int) : Except JsVal JsVal := do
  let rows ← getProp result "rows"
  let fields ← getProp result "fields"
  let mapped ← jsMap fields fieldPair
  let rowCount ← getProp result "rowCount"
  pure (obj [("rows", rows), ("fields", mapped), ("rowCount", rowCount),
    ("duration", num duration)])

/-- The catch block `res.status(500).json({ message: err.message })`: the
status is set before the argument is evaluated. -/
def sendError (err : JsVal) : Eff Unit := do
  resStatus 500
  let message ← Eff.ofExcept (getProp err "message")
  resJson (obj [("message", message)])

/-- The handler of `POST /api/query`, entered after `requireAuth`. -/
def queryHandler (env : Env) (req : Request) : Eff Unit := do
  let sql ← Eff.ofExcept (getProp req.body "sql")
  let params ← Eff.ofExcept (getProp req.body "params")
  if !sql.truthy then
    resStatus 400
    resJson (obj [("error", str "SQL required")])
  else
    Eff.tryCatch
      (do
        let start ← dateNow env
        let result ← poolQuery env [sql, params]
        let duration := (← dateNow env) - start
        let body ← Eff.ofExcept (queryBody result duration)
        resJson body)
      sendError

/-! ## The table list (`GET /api/tables`, server.js 130-144) -/

/-- The SQL text of the table list, as in the template literal. -/
def tablesSql : String :=
  "\n      SELECT \n        t.table_name, \n        t.table_schema,\n" ++
  "        (SELECT reltuples::bigint FROM pg_class WHERE relname = t.table_name) as approx_rows\n" ++
  "      FROM information_schema.tables t\n" ++
  "      WHERE t.table_schema NOT IN ('pg_catalog', 'information_schema')\n    "

/-- The handler of `GET /api/tables`, entered after `requireAuth`. -/
def tablesHandler (env : Env) (_req : Request) : Eff Unit :=
  Eff.tryCatch
    (do
      let result ← poolQuery env [str tablesSql]
      let rows ← Eff.ofExcept (getProp result "rows")
      resJson (obj [("rows", rows)]))
    sendError

/-! ## The Job Dispatcher (`POST /api/enqueue`, server.js 148-158) -/

/-- The options object every job is added with. -/
def jobOptions : JsVal := obj [("removeOnComplete", bool true), ("removeOnFail", num 5000)]

/-- The handler of `POST /api/enqueue`, entered after `requireAuth`. -/
def enqueueHandler (env : Env) (req : Request) : Eff Unit := do
  let taskType ← Eff.ofExcept (getProp req.body "taskType")
  let payload ← Eff.ofExcept (getProp req.body "payload")
  let _ ← queueAdd env [if taskType.truthy then taskType else str "default", payload, jobOptions]
  resJson (obj [("status", str "queued"), ("message", str "Task sent to worker")])

/-! ## The protected routes -/

/-- The three routes registered behind `requireAuth`. -/
inductive Endpoint where
  | query
  | tables
  | enqueue

/-- The handler registered after `requireAuth` on each route. -/
def Endpoint.handler : Endpoint → Env → Request → Eff Unit
  | .query => queryHandler
  | .tables => tablesHandler
  | .enqueue => enqueueHandler

/-- A protected route `app.METHOD(path, requireAuth, handler)`: the call
`next()` of `requireAuth` enters the handler with the same request object.
The handlers are async functions: an outcome `threw` of the route stands for
the rejected promise of the handler. -/
def route (ep : Endpoint) (env : Env) (req : Request) : Eff Unit :=
  requireAuth env req (ep.handler env)

/-- The value without its property `k` (a value that is not an object is left
as it is): two claim sets differ only in `k` when they agree after this. -/
def JsVal.dropProp (k : String) : JsVal → JsVal
  | obj props => obj (props.filter (fun p => p.1 != k))
  | v => v

/-! ## More of the runtime: text, `length`, indexing -/

/-- The number of UTF-16 code units of a string, its `length` in JavaScript. -/
def utf16Length (s : String) : Nat :=
  (s.data.map (fun c => if c.val < 0x10000 then 1 else 2)).sum

/-- The property read `v.length`: an array and a string have a length,
`undefined` and `null` throw, an object gives its own property. -/
def getLength (v : JsVal) : Except JsVal JsVal :=
  match v with
  | undefined => .error (typeError "Cannot read properties of undefined (reading length)")
  | null => .error (typeError "Cannot read properties of null (reading length)")
  | arr xs => .ok (num xs.length)
  | str s => .ok (num (utf16Length s))
  | obj props => .ok (lookup "length" props)
  | _ => .ok undefined

/-- The element read `v[0]`: the first element of an array (`undefined` when
there is none), the own property `0` of an object, the first character of a
string; `undefined` and `null` throw.  (Of a first character outside the Basic
Multilingual Plane JavaScript gives the first UTF-16 unit alone, which a
`String` cannot hold; the model gives the character.) -/
def getFirst (v : JsVal) : Except JsVal JsVal :=
  match v with
  | undefined => .error (typeError "Cannot read properties of undefined (reading 0)")
  | null => .error (typeError "Cannot read properties of null (reading 0)")
  | arr [] => .ok undefined
  | arr (x :: _) => .ok x
  | str s =>
    match s.data with
    | [] => .ok undefined
    | c :: _ => .ok (str (String.singleton c))
  | obj props => .ok (lookup "0" props)
  | _ => .ok undefined

/-- The conversion to text of a template literal (ToString).  A primitive
value converts without a throw.  An integer of magnitude below 2^53 is printed
with its decimal digits; from 2^53 on a double is printed with the shortest
digits that identify it, which is the engine's work (`render`), as is the
text of an array and of an object, where the engine throws on an object that
has no primitive value. -/
def toText (render : JsVal → Except JsVal String) : JsVal → Except JsVal String
  | undefined => .ok "undefined"
  | null => .ok "null"
  | .bool true => .ok "true"
  | .bool false => .ok "false"
  | num n => if n.natAbs < 2 ^ 53 then .ok (toString n) else render (num n)
  | str s => .ok s
  | v => render v

/-- The surroundings of the sign-in routes and of the worker process: those
of `Env` (for the worker, `poolQuery` is the pool of its own process) and the
rest of what they call. -/
structure Runtime extends Env where
  /-- The engine's conversion to text, see `toText`. -/
  render : JsVal → Except JsVal String
  /-- The promise of `pool.connect()`: fulfilled with a client or rejected. -/
  poolConnect : List Event → Except JsVal Unit
  /-- The promise of `client.query(...args)`. -/
  clientQuery : List Event → List JsVal → Except JsVal JsVal
  /-- The call `jwt.sign(...args)`: the token, or the error thrown. -/
  jwtSign : List Event → List JsVal → Except JsVal JsVal
  /-- The value of `process.env.FRONTEND_URL`. -/
  frontendUrl : JsVal

/-- The call `console.log(...args)`. -/
def consoleLog (args : List JsVal) : Eff Unit := fun w => .ok () (w.emit (.consoleLog args))

/-- The call `console.error(...args)`. -/
def consoleError (args : List JsVal) : Eff Unit := fun w => .ok () (w.emit (.consoleError args))

/-- The wait `await new Promise(r => setTimeout(r, ms))`. -/
def sleep (ms : Nat) : Eff Unit := fun w => .ok () (w.emit (.sleep ms))

/-! ## The Job Worker (`worker.js` 16-41) -/

/-- A job as the queue hands it to the processor. -/
structure Job where
  /-- The id the queue gave the job. -/
  id : String
  /-- The name the job was added under. -/
  name : String
  /-- The data the job was added with. -/
  data : JsVal

/-- The result `{ status: 'success' }`. -/
def successResult : JsVal := obj [("status", str "success")]

/-- The `try` block of the processor. -/
def jobBody (rt : Runtime) (job : Job) : Eff JsVal := do
  if job.name = "bulk_insert" then
    let table ← Eff.ofExcept (getProp job.data "table")
    let rows ← Eff.ofExcept (getProp job.data "rows")
    let tableText ← Eff.ofExcept (toText rt.render table)
    let length ← Eff.ofExcept (getLength rows)
    let lengthText ← Eff.ofExcept (toText rt.render length)
    consoleLog [str ("Simulating bulk insert into " ++ tableText ++ " of " ++ lengthText
      ++ " rows")]
    sleep 2000
  else if job.name = "rpc_trigger" then
    let functionName ← Eff.ofExcept (getProp job.data "functionName")
    let params ← Eff.ofExcept (getProp job.data "params")
    let functionText ← Eff.ofExcept (toText rt.render functionName)
    let _ ← poolQuery rt.toEnv [str ("SELECT " ++ functionText ++ "($1)"), arr [params]]
    pure ()
  else
    pure ()
  consoleLog [str ("Job " ++ job.id ++ " completed.")]
  pure successResult

/-- The `catch` block of the processor: log, then `throw err`. -/
def jobFailed (job : Job) (err : JsVal) : Eff JsVal := do
  consoleError [str ("Job " ++ job.id ++ " failed:"), err]
  Eff.throw err

/-- The processor `async (job) => ...` handed to `new Worker('irondb-jobs', ...)`. -/
def processor (rt : Runtime) (job : Job) : Eff JsVal := do
  consoleLog [str ("Processing job " ++ job.id ++ ": " ++ job.name)]
  Eff.tryCatch (jobBody rt job) (jobFailed job)

/-! ## The Session/Token Issuer (`server.js` 46-88) -/

/-- The call `await pool.connect()`. -/
def poolConnect (rt : Runtime) : Eff Unit := fun w =>
  match rt.poolConnect w.trace with
  | .ok () => .ok () (w.emit .poolConnect)
  | .error e => .threw e (w.emit .poolConnect)

/-- The expression `await client.query(...args)`. -/
def clientQuery (rt : Runtime) (args : List JsVal) : Eff JsVal := fun w =>
  match rt.clientQuery w.trace args with
  | .ok r => .ok r (w.emit (.clientQuery args))
  | .error e => .threw e (w.emit (.clientQuery args))

/-- The call `client.release()`. -/
def clientRelease : Eff Unit := fun w => .ok () (w.emit .clientRelease)

/-- The call `cb(...args)`. -/
def cb (args : List JsVal) : Eff Unit := fun w => .ok () (w.emit (.cb args))

/-- The call `jwt.sign(...args)`. -/
def jwtSign (rt : Runtime) (args : List JsVal) : Eff JsVal := fun w =>
  match rt.jwtSign w.trace args with
  | .ok token => .ok token (w.emit (.jwtSign args))
  | .error e => .threw e (w.emit (.jwtSign args))

/-- The call `res.redirect(url)`. -/
def resRedirect (url : String) : Eff Unit := fun w => .ok () (w.emit (.resRedirect url))

/-- The SQL text of the upsert, as in the template literal. -/
def upsertSql : String :=
  "\n        INSERT INTO users (email, provider, google_id, last_sign_in)\n" ++
  "        VALUES ($1, 'google', $2, NOW())\n" ++
  "        ON CONFLICT (email) DO UPDATE SET last_sign_in = NOW()\n" ++
  "        RETURNING *\n      "

/-- The `try` block of the verify callback. -/
def upsertUserAndReport (rt : Runtime) (email googleId : JsVal) : Eff Unit := do
  poolConnect rt
  let res ← clientQuery rt [str upsertSql, arr [email, googleId]]
  clientRelease
  let rows ← Eff.ofExcept (getProp res "rows")
  let user ← Eff.ofExcept (getFirst rows)
  cb [null, user]

/-- The verify callback `async (accessToken, refreshToken, profile, cb) => ...`
of the Google strategy; the two tokens are not used. -/
def googleVerify (rt : Runtime) (profile : JsVal) : Eff Unit := do
  let emails ← Eff.ofExcept (getProp profile "emails")
  let first ← Eff.ofExcept (getFirst emails)
  let email ← Eff.ofExcept (getProp first "value")
  let googleId ← Eff.ofExcept (getProp profile "id")
  Eff.tryCatch (upsertUserAndReport rt email googleId) (fun err => cb [err])

/-- The payload of the token: `{ sub: user.id, email: user.email, role: 'authenticated' }`. -/
def tokenPayload (id email : JsVal) : JsVal :=
  obj [("sub", id), ("email", email), ("role", str "authenticated")]

/-- The options of the token: `{ expiresIn: '24h' }`. -/
def tokenOptions : JsVal := obj [("expiresIn", str "24h")]

/-- The handler of `GET /auth/google/callback`, entered after the sign-in
succeeded, with the user record in `req.user`. -/
def googleCallbackHandler (rt : Runtime) (req : Request) : Eff Unit := do
  let id ← Eff.ofExcept (getProp req.user "id")
  let email ← Eff.ofExcept (getProp req.user "email")
  let token ← jwtSign rt [tokenPayload id email, rt.jwtSecret, tokenOptions]
  let base := if rt.frontendUrl.truthy then rt.frontendUrl else str "/"
  let baseText ← Eff.ofExcept (toText rt.render base)
  let tokenText ← Eff.ofExcept (toText rt.render token)
  let userEmail ← Eff.ofExcept (getProp req.user "email")
  let emailText ← Eff.ofExcept (toText rt.render userEmail)
  resRedirect (baseText ++ "?token=" ++ tokenText ++ "&user=" ++ emailText)

/-! ## The `users` table behind the upsert -/

/-- A row of the table `users`, with the columns that the setup script of
`src/index.tsx` (486-494) gives it.  A column that may be NULL is an `Option`;
the timestamps are kept as numbers. -/
structure UserRow where
  /-- The column `id uuid DEFAULT gen_random_uuid() PRIMARY KEY`. -/
  id : String
  /-- The column `email text UNIQUE NOT NULL`. -/
  email : String
  /-- The column `provider text DEFAULT 'email'`. -/
  provider : Option String
  /-- The column `google_id text UNIQUE`. -/
  googleId : Option String
  /-- The column `raw_user_meta_data jsonb DEFAULT '{}'::jsonb`. -/
  rawUserMetaData : JsVal
  /-- The column `created_at timestamptz DEFAULT now()`. -/
  createdAt : Option Int
  /-- The column `last_sign_in timestamptz`. -/
  lastSignIn : Option Int

/-- A text column as the driver returns it. -/
def textColumn : Option String → JsVal
  | some s => str s
  | none => null

/-- A timestamp column as the model returns it. -/
def timeColumn : Option Int → JsVal
  | some t => num t
  | none => null

/-- The row as the driver returns it for `RETURNING *`. -/
def UserRow.toJs (r : UserRow) : JsVal :=
  obj [("id", str r.id), ("email", str r.email), ("provider", textColumn r.provider),
    ("google_id", textColumn r.googleId), ("raw_user_meta_data", r.rawUserMetaData),
    ("created_at", timeColumn r.createdAt), ("last_sign_in", timeColumn r.lastSignIn)]

/-- The row with its last-sign-in time blanked: two tables that agree after
this differ in last-sign-in times only. -/
def UserRow.sansLastSignIn (r : UserRow) : UserRow := { r with lastSignIn := none }

/-- The error of the database when a row would repeat a value of a unique
column. -/
def uniqueViolation (constraint : String) : JsVal :=
  obj [("name", str "error"), ("code", str "23505"), ("constraint", str constraint),
    ("message", str ("duplicate key value violates unique constraint \"" ++ constraint
      ++ "\""))]

/-- The error of the model's database for a statement it does not know. -/
def notModelled : JsVal :=
  obj [("name", str "error"), ("message", str "statement outside the model")]

/-- The text a bind value is sent as: a string as it is, `undefined` and `null`
as NULL.  Bind values of other kinds are not modelled. -/
def bindText : JsVal → Option (Option String)
  | str s => some (some s)
  | null => some none
  | undefined => some none
  | _ => none

/-- The branch `ON CONFLICT (email) DO UPDATE SET last_sign_in = NOW()`: the
row with this email, if there is one, gets the new time; the result is that
row and the table. -/
def touchUser (now : Int) (email : String) : List UserRow → Option (UserRow × List UserRow)
  | [] => none
  | r :: rest =>
    if r.email = email then
      some ({ r with lastSignIn := some now }, { r with lastSignIn := some now } :: rest)
    else
      match touchUser now email rest with
      | some (u, rest') => some (u, r :: rest')
      | none => none

/-- The row that the upsert statement proposes: provider `google`, the other
columns at their defaults, both times now. -/
def newUser (now : Int) (newId email : String) (googleId : Option String) : UserRow :=
  ⟨newId, email, some "google", googleId, obj [], some now, some now⟩

/-- The upsert statement on the table `users`, as the database runs it.  The
conflict target is the email: a known email only gets its last-sign-in time
set, whatever the Google id.  A new email is inserted, and the insert is
refused when the new id is taken (primary key) or when the Google id, not
NULL, is held by a row already (`google_id` is unique).  The result is the row
of `RETURNING *` and the table, or the error. -/
def upsertUser (now : Int) (newId email : String) (googleId : Option String)
    (users : List UserRow) : Except JsVal (UserRow × List UserRow) :=
  match touchUser now email users with
  | some res => .ok res
  | none =>
    if users.any (fun r => decide (r.id = newId)) then
      .error (uniqueViolation "users_pkey")
    else if googleId.isSome && users.any (fun r => decide (r.googleId = googleId)) then
      .error (uniqueViolation "users_google_id_key")
    else
      .ok (newUser now newId email googleId, users ++ [newUser now newId email googleId])

/-- The table after a history, newest event first, starting from `users`:
every upsert of the history that the database accepted, applied in turn at the
time it was issued (the number of events before it); `uuid` gives the id that
`gen_random_uuid()` draws at a time. -/
def usersAt (uuid : Nat → String) (users : List UserRow) : List Event → List UserRow
  | [] => users
  | .clientQuery [str sql, arr [str email, googleId]] :: older =>
    if sql = upsertSql then
      match bindText googleId with
      | some g =>
        match upsertUser older.length (uuid older.length) email g (usersAt uuid users older) with
        | .ok res => res.2
        | .error _ => usersAt uuid users older
      | none => usersAt uuid users older
    else usersAt uuid users older
  | _ :: older => usersAt uuid users older

/-- The table after a history, oldest event first. -/
def usersAfter (uuid : Nat → String) (users : List UserRow) (hist : List Event) :
    List UserRow :=
  usersAt uuid users hist.reverse

/-- The result the driver fulfils the upsert with. -/
def upsertResult (u : UserRow) : JsVal :=
  obj [("command", str "INSERT"), ("rowCount", num 1), ("rows", arr [u.toJs])]

/-! ## The life of a job in the queue -/

/-- Modelled from the spec: the states of a job (section 4.5): queued,
processing, then success or failed.  The queue engine is not in the source. -/
inductive JobState where
  | queued
  | processing
  | success
  | failed
  deriving DecidableEq

/-- Modelled from the spec: a job in the queue, with the states it has passed
through, oldest first. -/
structure Tracked where
  job : Job
  path : List JobState

/-- Is the job waiting to be claimed? -/
def Tracked.isQueued (t : Tracked) : Bool := t.path.getLast? = some .queued

/-- Modelled from the spec: what a fulfilled `jobQueue.add` leaves in the queue
(section 3: the producer creates the job, the queue gives it an id and owns
it): the job, queued, under the name and with the data it was added with. -/
def Tracked.added (id : String) : Event → Option Tracked
  | .queueAdd _ [str name, data, _] => some ⟨⟨id, name, data⟩, [.queued]⟩
  | _ => none

/-- Modelled from the spec: one turn of the worker (section 4.5).  The first
queued job is claimed, which makes it processing, and handed to the processor;
it ends as success when the processor returns and as failed when it throws.
A job in another state is left alone: the retries of the queue are its own and
are not modelled. -/
def workerTurn (rt : Runtime) : List Tracked → World → List Tracked × World
  | [], w => ([], w)
  | t :: rest, w =>
    if t.isQueued then
      match processor rt t.job w with
      | .ok _ w' => ({ t with path := t.path ++ [.processing, .success] } :: rest, w')
      | .threw _ w' => ({ t with path := t.path ++ [.processing, .failed] } :: rest, w')
    else
      ((t :: (workerTurn rt rest w).1), (workerTurn rt rest w).2)

/-- A number of turns of the worker, one after the other. -/
def workerTurns (rt : Runtime) : Nat → List Tracked → World → List Tracked × World
  | 0, queue, w => (queue, w)
  | n + 1, queue, w => workerTurns rt n (workerTurn rt queue w).1 (workerTurn rt queue w).2

/-- Modelled from the spec: the round trip of a request to the dispatcher.  The
request is served; when it ends without a throw, the jobs it added are in the
queue (under the id `id`) and the worker takes `turns` turns.  Gives the queue
and the world at the end. -/
def roundTrip (env : Env) (rt : Runtime) (req : Request) (id : String) (turns : Nat)
    (w : World) : List Tracked × World :=
  match route .enqueue env req w with
  | .threw _ w₁ => ([], w₁)
  | .ok _ w₁ =>
    workerTurns rt turns ((w₁.trace.drop w.trace.length).filterMap (Tracked.added id)) w₁

/-- The world after a request to the dispatcher has been served. -/
def enqueued (env : Env) (req : Request) (w : World) : World :=
  (route .enqueue env req w).world

/-! ## Vocabulary of the claims about the SQL Gateway -/

/-- The property `k` of an object; `undefined` for a value without properties. -/
def JsVal.prop (v : JsVal) (k : String) : JsVal :=
  match v with
  | obj props => lookup k props
  | _ => undefined

/-- What the response keeps of a column description: the pair of its name and
its type id, every other attribute dropped. -/
def nameAndType (f : JsVal) : JsVal :=
  obj [("name", f.prop "name"), ("dataTypeID", f.prop "dataTypeID")]

/-- Does `v` hold a `rows` array whose length is its `rowCount` number? -/
def rowsMatchRowCount (v : JsVal) : Bool :=
  match v.prop "rows", v.prop "rowCount" with
  | arr rows, num n => (rows.length : Int) == n
  | _, _ => false

/-- The status code of a response event. -/
def Event.responseStatus : Event → Option Nat
  | .resJson status _ => some status
  | _ => none

/-- The body of a response event. -/
def Event.responseBody : Event → Option JsVal
  | .resJson _ body => some body
  | _ => none

/-- Is the event a `jwt.sign` call? -/
def Event.isJwtSign : Event → Bool
  | .jwtSign _ => true
  | _ => false

/-- Is the event a `client.release()` call? -/
def Event.isClientRelease : Event → Bool
  | .clientRelease => true
  | _ => false

/-! ## Sample surroundings, used to instantiate the theorems -/

/-- The claims of the sample token. -/
def sampleClaims : JsVal :=
  obj [("sub", num 7), ("email", str "ada@example.org"), ("role", str "authenticated")]

/-- A driver result for `SELECT 1 as x`. -/
def sampleResult : JsVal :=
  obj [("command", str "SELECT"), ("rowCount", num 1), ("rows", arr [obj [("x", num 1)]]),
    ("fields", arr [obj [("name", str "x"), ("tableID", num 0), ("dataTypeID", num 23)]])]

/-- Surroundings in which the token library accepts exactly the token `good`,
every query gives `sampleResult`, the queue accepts every job and the clock
reads the number of calls made so far. -/
def sampleEnv : Env where
  jwtSecret := str "s3cret"
  jwtVerify := fun _ token _ =>
    match token with
    | str "good" => (null, sampleClaims)
    | _ => (obj [("name", str "JsonWebTokenError"), ("message", str "invalid signature")],
        undefined)
  poolQuery := fun _ _ => .ok sampleResult
  queueAdd := fun _ _ => .ok (obj [("id", str "1")])
  clock := fun hist => hist.length

/-- The sample surroundings with a token library that accepts two tokens,
`user` and `admin`, whose claims differ only in the role. -/
def roleEnv : Env :=
  { sampleEnv with
    jwtVerify := fun _ token _ =>
      match token with
      | str "user" => (null, obj [("sub", num 7), ("role", str "authenticated")])
      | str "admin" => (null, obj [("sub", num 7), ("role", str "admin")])
      | _ => (obj [("message", str "invalid signature")], undefined) }

/-- The sample surroundings with a driver that answers a text of two
statements the way `pg` does: with the array of the two results. -/
def multiEnv : Env :=
  { sampleEnv with poolQuery := fun _ _ => .ok (arr [sampleResult, sampleResult]) }

/-- The sample surroundings with a driver that answers an `UPDATE` of three
rows without `RETURNING` the way `pg` does: no rows, `rowCount` 3. -/
def updateEnv : Env :=
  { sampleEnv with
    poolQuery := fun _ _ =>
      .ok (obj [("command", str "UPDATE"), ("rowCount", num 3), ("rows", arr []),
        ("fields", arr [])]) }

/-- The sample surroundings with a queue broker that refuses every job. -/
def brokenQueueEnv : Env :=
  { sampleEnv with
    queueAdd := fun _ _ =>
      .error (obj [("name", str "Error"), ("message", str "Connection is closed.")]) }

/-- The sample surroundings with a driver that rejects every statement. -/
def failingQueryEnv : Env :=
  { sampleEnv with
    poolQuery := fun _ _ =>
      .error (obj [("name", str "error"),
        ("message", str "relation \"missing\" does not exist")]) }

/-- A user record as the upsert returns it. -/
def sampleUser : JsVal :=
  obj [("id", num 7), ("email", str "ada@example.org"), ("provider", str "google"),
    ("google_id", str "g-1"), ("last_sign_in", num 0)]

/-- The profile the identity provider hands over for the sample user. -/
def sampleProfile : JsVal :=
  obj [("id", str "g-1"), ("displayName", str "Ada"),
    ("emails", arr [obj [("value", str "ada@example.org"), ("verified", bool true)]])]

/-- Sample surroundings of the sign-in routes and of the worker: those of
`sampleEnv`, a database that answers the upsert with `sampleUser`, a token
library that signs every payload as `good`. -/
def sampleRuntime : Runtime where
  toEnv := sampleEnv
  render := fun _ => .ok "[object Object]"
  poolConnect := fun _ => .ok ()
  clientQuery := fun _ _ => .ok (obj [("command", str "INSERT"), ("rowCount", num 1),
    ("rows", arr [sampleUser])])
  jwtSign := fun _ _ => .ok (str "good")
  frontendUrl := undefined

/-- The sample surroundings with a database whose statements all fail. -/
def failingDbRuntime : Runtime :=
  { sampleRuntime with
    poolQuery := fun _ _ => .error (obj [("message", str "function does not exist")])
    clientQuery := fun _ _ => .error (obj [("message", str "relation users does not exist")]) }

/-- The sample surroundings with a pool that hands out no connection. -/
def noConnectionRuntime : Runtime :=
  { sampleRuntime with
    poolConnect := fun _ => .error (obj [("message", str "connect ECONNREFUSED")]) }

/-- Surroundings whose database is the table `users`, starting from `users`:
the upsert statement with a string email is answered from the table as the
history left it.  Another statement, and a bind value that is neither a
string nor NULL, is not modelled and is answered with an error. -/
def usersDb (uuid : Nat → String) (users : List UserRow) : Runtime :=
  { sampleRuntime with
    clientQuery := fun hist args =>
      match args with
      | [str sql, arr [str email, googleId]] =>
        if sql = upsertSql then
          match bindText googleId with
          | some g =>
            match upsertUser hist.length (uuid hist.length) email g
                (usersAfter uuid users hist) with
            | .ok res => .ok (upsertResult res.1)
            | .error e => .error e
          | none => .error notModelled
        else .error notModelled
      | _ => .error notModelled }

/-- The world after one sign-in of `profile` against the table `users`. -/
def signIn (uuid : Nat → String) (users : List UserRow) (profile : JsVal) (w : World) :
    World :=
  (googleVerify (usersDb uuid users) profile w).world

/-- The ids the sample database draws. -/
def sampleUuid (n : Nat) : String := "00000000-0000-4000-8000-" ++ toString n

/-- A table that holds the sample user, with the Google id `g-1`. -/
def adaOnly : List UserRow :=
  [⟨"7", "ada@example.org", some "google", some "g-1", obj [], some 0, some 0⟩]

/-- A profile with the Google id of the sample user and another email. -/
def eveProfile : JsVal :=
  obj [("id", str "g-1"), ("emails", arr [obj [("value", str "eve@example.org")]])]

/-! ## Running the monad -/

section Run

variable {α β : Type}

@[simp] theorem Eff.pure_run (a : α) (w : World) : (pure a : Eff α) w = .ok a w := rfl

@[simp] theorem Eff.bind_run (m : Eff α) (f : α → Eff β) (w : World) :
    (m >>= f) w = (match m w with
      | .ok a w' => f a w'
      | .threw e w' => .threw e w') := rfl

@[simp] theorem Eff.tryCatch_run (body : Eff α) (handler : JsVal → Eff α) (w : World) :
    Eff.tryCatch body handler w = (match body w with
      | .ok a w' => .ok a w'
      | .threw e w' => handler e w') := rfl

@[simp] theorem Eff.ofExcept_ok (a : α) (w : World) : Eff.ofExcept (.ok a) w = .ok a w := rfl

@[simp] theorem Eff.ofExcept_error (e : JsVal) (w : World) :
    (Eff.ofExcept (.error e) : Eff α) w = .threw e w := rfl

@[simp] theorem resStatus_run (code : Nat) (w : World) :
    resStatus code w = .ok () ⟨w.trace, code⟩ := rfl

@[simp] theorem resJson_run (body : JsVal) (w : World) :
    resJson body w = .ok () ⟨w.trace ++ [.resJson w.statusCode body], w.statusCode⟩ := rfl

@[simp] theorem jwtVerify_run (env : Env) (token secret : JsVal) (w : World) :
    jwtVerify env token secret w
      = .ok (env.jwtVerify w.trace token secret)
          ⟨w.trace ++ [.jwtVerify token secret], w.statusCode⟩ := rfl

@[simp] theorem dateNow_run (env : Env) (w : World) :
    dateNow env w
      = .ok (env.clock w.trace) ⟨w.trace ++ [.dateNow (env.clock w.trace)], w.statusCode⟩ := rfl

end Run

/-! ## `split` on a header of the form `scheme token` -/

theorem splitAux_no_sep (sep : Char) (s cur : List Char) (hs : sep ∉ s) :
    splitAux sep s cur = [cur.reverse ++ s] := by
  induction s generalizing cur with
  | nil => simp [splitAux]
  | cons c cs ih =>
    have hc : c ≠ sep := fun h => hs (by simp [h])
    have hcs : sep ∉ cs := fun h => hs (by simp [h])
    simp [splitAux, hc, ih _ hcs]

theorem splitAux_append_sep (sep : Char) (s rest cur : List Char) (hs : sep ∉ s) :
    splitAux sep (s ++ sep :: rest) cur = (cur.reverse ++ s) :: splitAux sep rest [] := by
  induction s generalizing cur with
  | nil => simp [splitAux]
  | cons c cs ih =>
    have hc : c ≠ sep := fun h => hs (by simp [h])
    have hcs : sep ∉ cs := fun h => hs (by simp [h])
    simp [splitAux, hc, ih _ hcs]

/-- A header made of a scheme word, one space and a token without space
splits into exactly these two pieces. -/
theorem jsSplit_scheme (s t : String) (hs : ' ' ∉ s.data) (ht : ' ' ∉ t.data) :
    jsSplit (s ++ " " ++ t) ' ' = [s, t] := by
  have h : (s ++ " " ++ t).data = s.data ++ ' ' :: t.data := by
    simp [String.data_append]
  simp [jsSplit, h, splitAux_append_sep _ _ _ _ hs, splitAux_no_sep _ _ _ ht]

/-- The token the gate reads from `scheme token` is `token`, whatever the
scheme word. -/
theorem bearerToken_scheme (s t : String) (hs : ' ' ∉ s.data) (ht : ' ' ∉ t.data) :
    bearerToken (s ++ " " ++ t) = str t := by
  simp [bearerToken, jsSplit_scheme s t hs ht, jsIndex]

/-- A header with a scheme word is not the empty string. -/
theorem scheme_header_ne_empty (s t : String) : s ++ " " ++ t ≠ "" := by
  intro h
  have h1 := congrArg String.length h
  have h2 : " ".length = 1 := rfl
  simp [String.length_append, h2] at h1

/-! ## The three ways through `requireAuth` -/

/-- Header absent or empty: 401, nothing else. -/
theorem requireAuth_run_missing (env : Env) (req : Request) (next : Request → Eff Unit)
    (w : World) (h : req.authorization = none ∨ req.authorization = some "") :
    requireAuth env req next w
      = .ok () ⟨w.trace ++ [.resJson 401 (obj [("error", str "No token provided")])], 401⟩ := by
  rcases h with h | h <;> simp [requireAuth, h]

/-- Header present, verification fails: one `jwt.verify` call, then 403. -/
theorem requireAuth_run_invalid (env : Env) (req : Request) (next : Request → Eff Unit)
    (w : World) (h : String) (hh : req.authorization = some h) (hne : h ≠ "")
    (hv : (env.jwtVerify w.trace (bearerToken h) env.jwtSecret).1.truthy = true) :
    requireAuth env req next w
      = .ok () ⟨w.trace ++ [.jwtVerify (bearerToken h) env.jwtSecret,
          .resJson 403 (obj [("error", str "Invalid token")])], 403⟩ := by
  simp [requireAuth, hh, hne, hv]

/-- Header present, verification succeeds: one `jwt.verify` call, then `next`
is entered once, with `req.user` set to the decoded claims. -/
theorem requireAuth_run_valid (env : Env) (req : Request) (next : Request → Eff Unit)
    (w : World) (h : String) (hh : req.authorization = some h) (hne : h ≠ "")
    (hv : (env.jwtVerify w.trace (bearerToken h) env.jwtSecret).1.truthy = false) :
    requireAuth env req next w
      = next { req with user := (env.jwtVerify w.trace (bearerToken h) env.jwtSecret).2 }
          ⟨w.trace ++ [.jwtVerify (bearerToken h) env.jwtSecret, .next], w.statusCode⟩ := by
  simp [requireAuth, hh, hne, hv, World.emit]


/-! ## The SQL Gateway behind the gate -/

/-- A value whose property `k` can be read lets every property be read. -/
theorem getProp_ok_of_ok {v a : JsVal} {k : String} (h : getProp v k = .ok a) (k' : String) :
    ∃ b, getProp v k' = .ok b := by
  cases v <;> simp [getProp] at h ⊢

@[simp] theorem poolQuery_run (env : Env) (args : List JsVal) (w : World) :
    poolQuery env args w
      = (match env.poolQuery w.trace args with
        | .ok r => .ok r ⟨w.trace ++ [.poolQuery args], w.statusCode⟩
        | .error e => .threw e ⟨w.trace ++ [.poolQuery args], w.statusCode⟩) := rfl

/-- The handler on a falsy `sql`: 400 and nothing else. -/
theorem queryHandler_run_falsy (env : Env) (req : Request) (w : World) (sql : JsVal)
    (hsql : getProp req.body "sql" = .ok sql) (hfalsy : sql.truthy = false) :
    queryHandler env req w
      = .ok () ⟨w.trace ++ [.resJson 400 (obj [("error", str "SQL required")])], 400⟩ := by
  obtain ⟨p, hp⟩ := getProp_ok_of_ok hsql "params"
  simp [queryHandler, hsql, hp, hfalsy]

/-- The handler on a truthy `sql`: the clock is read, `pool.query` is called
once with `sql` and `params`, and what follows depends on its answer. -/
theorem queryHandler_run_truthy (env : Env) (req : Request) (w : World) (sql params : JsVal)
    (hsql : getProp req.body "sql" = .ok sql) (hparams : getProp req.body "params" = .ok params)
    (htruthy : sql.truthy = true) :
    queryHandler env req w
      = (match env.poolQuery (w.trace ++ [.dateNow (env.clock w.trace)]) [sql, params] with
        | .ok result =>
          let hist := w.trace ++ [.dateNow (env.clock w.trace), .poolQuery [sql, params]]
          (match queryBody result (env.clock hist - env.clock w.trace) with
          | .ok body =>
            .ok () ⟨hist ++ [.dateNow (env.clock hist), .resJson w.statusCode body], w.statusCode⟩
          | .error e => sendError e ⟨hist ++ [.dateNow (env.clock hist)], w.statusCode⟩)
        | .error e =>
          sendError e
            ⟨w.trace ++ [.dateNow (env.clock w.trace), .poolQuery [sql, params]],
              w.statusCode⟩) := by
  cases hq : env.poolQuery (w.trace ++ [.dateNow (env.clock w.trace)]) [sql, params] with
  | error e => simp [queryHandler, hsql, hparams, htruthy, hq]
  | ok result =>
    cases hb : queryBody result
        (env.clock (w.trace ++ [.dateNow (env.clock w.trace), .poolQuery [sql, params]])
          - env.clock w.trace) with
    | error e => simp [queryHandler, hsql, hparams, htruthy, hq, hb]
    | ok body => simp [queryHandler, hsql, hparams, htruthy, hq, hb]

/-- The catch block sends at most one response, and nothing else. -/
theorem sendError_trace (err : JsVal) (w : World) :
    (sendError err w).world.trace = w.trace
      ∨ ∃ m, (sendError err w).world.trace = w.trace ++ [.resJson 500 (obj [("message", m)])] := by
  cases err <;> simp [sendError, getProp, Outcome.world]

/-- On a truthy `sql` the events the handler adds hold one database call, the
`pool.query` with `sql` and `params`. -/
theorem queryHandler_database (env : Env) (req : Request) (w : World) (hist : List Event)
    (sql params : JsVal)
    (hsql : getProp req.body "sql" = .ok sql) (hparams : getProp req.body "params" = .ok params)
    (htruthy : sql.truthy = true) :
    (((queryHandler env req ⟨hist ++ w.trace, w.statusCode⟩).world.trace.drop
        hist.length).filter Event.isDatabase)
      = w.trace.filter Event.isDatabase ++ [.poolQuery [sql, params]] := by
  rw [queryHandler_run_truthy env req _ sql params hsql hparams htruthy]
  simp only []
  split
  · split
    · simp [Outcome.world, Event.isDatabase, List.filter_append]
    · rename_i e _
      rcases sendError_trace e ⟨hist ++ w.trace ++ [.dateNow (env.clock (hist ++ w.trace)),
        .poolQuery [sql, params]] ++ [.dateNow (env.clock (hist ++ w.trace ++
          [.dateNow (env.clock (hist ++ w.trace)), .poolQuery [sql, params]]))], w.statusCode⟩
        with ht | ⟨m, ht⟩ <;>
      · rw [ht]
        simp [Event.isDatabase, List.filter_append]
  · rename_i e _
    rcases sendError_trace e ⟨hist ++ w.trace ++ [.dateNow (env.clock (hist ++ w.trace)),
      .poolQuery [sql, params]], w.statusCode⟩ with ht | ⟨m, ht⟩ <;>
    · rw [ht]
      simp [Event.isDatabase, List.filter_append]

/-- A column description that is neither `undefined` nor `null` maps to its
name and type id. -/
theorem fieldPair_ok (f : JsVal) (hf : f ≠ undefined ∧ f ≠ null) :
    fieldPair f = .ok (nameAndType f) := by
  cases f <;> simp_all [fieldPair, nameAndType, JsVal.prop, getProp, bind, Except.bind, pure,
    Except.pure]

/-- The `map` over the column descriptions succeeds and keeps their order. -/
theorem mapExcept_fieldPair (fs : List JsVal) (hfs : ∀ f ∈ fs, f ≠ undefined ∧ f ≠ null) :
    mapExcept fieldPair fs = .ok (fs.map nameAndType) := by
  induction fs with
  | nil => rfl
  | cons f fs ih =>
    have hf := hfs f (by simp)
    have hrest := ih (fun g hg => hfs g (by simp [hg]))
    simp [mapExcept, fieldPair_ok f hf, hrest]

/-- The success body built from a result object whose `fields` is an array of
column descriptions. -/
theorem queryBody_ok (props : List (String × JsVal)) (fs : List JsVal) (duration : Int)
    (hfields : lookup "fields" props = arr fs) (hfs : ∀ f ∈ fs, f ≠ undefined ∧ f ≠ null) :
    queryBody (obj props) duration
      = .ok (obj [("rows", lookup "rows" props), ("fields", arr (fs.map nameAndType)),
          ("rowCount", lookup "rowCount" props), ("duration", num duration)]) := by
  simp [queryBody, getProp, hfields, jsMap, mapExcept_fieldPair fs hfs, bind, Except.bind, pure,
    Except.pure]

/-- The run of the query route on an accepted token, a truthy `sql` and a
driver that answers with a well-formed result object. -/
theorem queryRoute_run_success (env : Env) (req : Request) (w : World) (h : String)
    (sql params : JsVal) (props : List (String × JsVal)) (fs : List JsVal) (t₁ t₂ : Int)
    (hh : req.authorization = some h) (hne : h ≠ "")
    (hv : (env.jwtVerify w.trace (bearerToken h) env.jwtSecret).1.truthy = false)
    (hsql : getProp req.body "sql" = .ok sql) (hparams : getProp req.body "params" = .ok params)
    (htruthy : sql.truthy = true)
    (ht₁ : env.clock (w.trace ++ [.jwtVerify (bearerToken h) env.jwtSecret, .next]) = t₁)
    (hq : env.poolQuery
        (w.trace ++ [.jwtVerify (bearerToken h) env.jwtSecret, .next, .dateNow t₁])
        [sql, params] = .ok (obj props))
    (ht₂ : env.clock (w.trace ++ [.jwtVerify (bearerToken h) env.jwtSecret, .next,
        .dateNow t₁, .poolQuery [sql, params]]) = t₂)
    (hfields : lookup "fields" props = arr fs) (hfs : ∀ f ∈ fs, f ≠ undefined ∧ f ≠ null) :
    route .query env req w
      = .ok () ⟨w.trace ++ [.jwtVerify (bearerToken h) env.jwtSecret, .next, .dateNow t₁,
          .poolQuery [sql, params], .dateNow t₂,
          .resJson w.statusCode (obj [("rows", lookup "rows" props),
            ("fields", arr (fs.map nameAndType)), ("rowCount", lookup "rowCount" props),
            ("duration", num (t₂ - t₁))])], w.statusCode⟩ := by
  rw [route, requireAuth_run_valid env req _ w h hh hne hv]
  simp only [Endpoint.handler]
  rw [queryHandler_run_truthy env
    { req with user := (env.jwtVerify w.trace (bearerToken h) env.jwtSecret).2 } _ sql params
    hsql hparams htruthy]
  simp only [List.append_assoc, List.cons_append, List.nil_append, ht₁, hq, ht₂,
    queryBody_ok props fs _ hfields hfs]

/-! ## C1: no database or queue call without an accepted token -/

/-- C1: on each of the three protected routes, a `pool.query` (or any other
database call) or a `jobQueue.add` happens only if `requireAuth` accepted the
token: the header is present and non-empty and the `jwt.verify` callback got
no error.  In particular a request without the header, and a request whose
token `jwt.verify` rejects, cause no database call and no queue add. -/
theorem protected_call_only_if_accepted (ep : Endpoint) (env : Env) (req : Request) (w : World) :
    ((∃ ev ∈ (route ep env req).emitted w, ev.isDatabase = true ∨ ev.isQueueAdd = true) →
      ∃ h, req.authorization = some h ∧ h ≠ "" ∧
        (env.jwtVerify w.trace (bearerToken h) env.jwtSecret).1.truthy = false)
    ∧ (req.authorization = none →
        ∀ ev ∈ (route ep env req).emitted w, ev.isDatabase = false ∧ ev.isQueueAdd = false)
    ∧ (∀ h, req.authorization = some h →
        (env.jwtVerify w.trace (bearerToken h) env.jwtSecret).1.truthy = true →
        ∀ ev ∈ (route ep env req).emitted w, ev.isDatabase = false ∧ ev.isQueueAdd = false) := by
  refine ⟨?_, ?_, ?_⟩
  · rintro ⟨ev, hev, hcall⟩
    cases hh : req.authorization with
    | none =>
      rw [route, Eff.emitted, requireAuth_run_missing env req _ w (Or.inl hh)] at hev
      simp [Outcome.world] at hev
      subst hev
      simp [Event.isDatabase, Event.isQueueAdd] at hcall
    | some h =>
      by_cases hne : h = ""
      · subst hne
        rw [route, Eff.emitted, requireAuth_run_missing env req _ w (Or.inr hh)] at hev
        simp [Outcome.world] at hev
        subst hev
        simp [Event.isDatabase, Event.isQueueAdd] at hcall
      · cases hv : (env.jwtVerify w.trace (bearerToken h) env.jwtSecret).1.truthy with
        | false => exact ⟨h, rfl, hne, hv⟩
        | true =>
          rw [route, Eff.emitted, requireAuth_run_invalid env req _ w h hh hne hv] at hev
          simp [Outcome.world] at hev
          rcases hev with hev | hev <;> subst hev <;>
            simp [Event.isDatabase, Event.isQueueAdd] at hcall
  · intro hh ev hev
    rw [route, Eff.emitted, requireAuth_run_missing env req _ w (Or.inl hh)] at hev
    simp [Outcome.world] at hev
    subst hev
    simp [Event.isDatabase, Event.isQueueAdd]
  · intro h hh hv ev hev
    by_cases hne : h = ""
    · subst hne
      rw [route, Eff.emitted, requireAuth_run_missing env req _ w (Or.inr hh)] at hev
      simp [Outcome.world] at hev
      subst hev
      simp [Event.isDatabase, Event.isQueueAdd]
    · rw [route, Eff.emitted, requireAuth_run_invalid env req _ w h hh hne hv] at hev
      simp [Outcome.world] at hev
      rcases hev with hev | hev <;> subst hev <;> simp [Event.isDatabase, Event.isQueueAdd]

/-- C1 at the query route: the request that reaches `pool.query` carries the
accepted token `good`. -/
theorem protected_call_only_if_accepted_witness :
    ∃ h, (some "Bearer good" : Option String) = some h ∧ h ≠ "" ∧
      (sampleEnv.jwtVerify [] (bearerToken h) sampleEnv.jwtSecret).1.truthy = false :=
  (protected_call_only_if_accepted .query sampleEnv
      ⟨some "Bearer good", obj [("sql", str "SELECT 1 as x")], undefined⟩ (World.fresh [])).1
    ⟨.poolQuery [str "SELECT 1 as x", undefined], by
      have hrun : (route .query sampleEnv
          ⟨some "Bearer good", obj [("sql", str "SELECT 1 as x")], undefined⟩).emitted
            (World.fresh [])
          = [.jwtVerify (str "good") (str "s3cret"), .next, .dateNow 2,
              .poolQuery [str "SELECT 1 as x", undefined], .dateNow 4,
              .resJson 200 (obj [("rows", arr [obj [("x", num 1)]]),
                ("fields", arr [obj [("name", str "x"), ("dataTypeID", num 23)]]),
                ("rowCount", num 1), ("duration", num 2)])] := by
        rfl
      rw [hrun]
      simp, by
      simp [Event.isDatabase]⟩

/-! ## C2: a request without the header -/

/-- C2: when the request has no Authorization header, `requireAuth` answers
with status 401 and the body `{"error": "No token provided"}`; that response
is the only thing it does, so `jwt.verify` is not called and `next` is not
called (the outcome does not depend on `next`). -/
theorem requireAuth_missing_header (env : Env) (req : Request) (next : Request → Eff Unit)
    (w : World) (h : req.authorization = none) :
    requireAuth env req next w
        = .ok () ⟨w.trace ++ [.resJson 401 (obj [("error", str "No token provided")])], 401⟩
      ∧ (requireAuth env req next).emitted w
        = [.resJson 401 (obj [("error", str "No token provided")])] := by
  simp [requireAuth, h, Eff.emitted, Outcome.world]

/-- C2 at a request without header and with a body. -/
theorem requireAuth_missing_header_witness :
    requireAuth sampleEnv ⟨none, obj [("sql", str "SELECT 1 as x")], undefined⟩
          (queryHandler sampleEnv) (World.fresh [])
        = .ok () ⟨[.resJson 401 (obj [("error", str "No token provided")])], 401⟩
      ∧ (requireAuth sampleEnv ⟨none, obj [("sql", str "SELECT 1 as x")], undefined⟩
          (queryHandler sampleEnv)).emitted (World.fresh [])
        = [.resJson 401 (obj [("error", str "No token provided")])] :=
  requireAuth_missing_header sampleEnv _ _ _ rfl

/-! ## C3: a presented token that fails verification -/

/-- C3: when a token is presented (the header is a non-empty string) and its
verification fails (the `jwt.verify` callback gets an error), `requireAuth`
answers 403 with the body `{"error": "Invalid token"}`: it sends no 401 and
does not call `next`. -/
theorem requireAuth_invalid_token (env : Env) (req : Request) (next : Request → Eff Unit)
    (w : World) (h : String) (hh : req.authorization = some h) (hne : h ≠ "")
    (hv : (env.jwtVerify w.trace (bearerToken h) env.jwtSecret).1.truthy = true) :
    requireAuth env req next w
        = .ok () ⟨w.trace ++ [.jwtVerify (bearerToken h) env.jwtSecret,
            .resJson 403 (obj [("error", str "Invalid token")])], 403⟩
      ∧ (∀ body, Event.resJson 401 body ∉ (requireAuth env req next).emitted w)
      ∧ Event.next ∉ (requireAuth env req next).emitted w := by
  have hrun := requireAuth_run_invalid env req next w h hh hne hv
  refine ⟨hrun, ?_, ?_⟩ <;> simp [Eff.emitted, hrun, Outcome.world]

/-- C3 at the token `forged`, which the sample token library rejects. -/
theorem requireAuth_invalid_token_witness :
    requireAuth sampleEnv ⟨some "Bearer forged", obj [], undefined⟩ (queryHandler sampleEnv)
          (World.fresh [])
        = .ok () ⟨[.jwtVerify (str "forged") (str "s3cret"),
            .resJson 403 (obj [("error", str "Invalid token")])], 403⟩
      ∧ (∀ body, Event.resJson 401 body ∉
          (requireAuth sampleEnv ⟨some "Bearer forged", obj [], undefined⟩
            (queryHandler sampleEnv)).emitted (World.fresh []))
      ∧ Event.next ∉
          (requireAuth sampleEnv ⟨some "Bearer forged", obj [], undefined⟩
            (queryHandler sampleEnv)).emitted (World.fresh []) :=
  requireAuth_invalid_token sampleEnv _ _ _ "Bearer forged" rfl (by decide) rfl

/-! ## C4: a valid token presented as `Bearer <token>` -/

/-- C4: when the header is `Bearer <token>` and the verification of the token
succeeds with decoded claims `d` (the callback gets no error), `requireAuth`
calls `jwt.verify` once on the token, sends no response and enters `next`
exactly once, with `req.user` set to `d` itself.  The token has no space in
it, as every compact JWT. -/
theorem requireAuth_valid_token (env : Env) (req : Request) (next : Request → Eff Unit)
    (w : World) (t : String) (err d : JsVal)
    (hh : req.authorization = some ("Bearer " ++ t)) (ht : ' ' ∉ t.data)
    (hv : env.jwtVerify w.trace (str t) env.jwtSecret = (err, d)) (herr : err.truthy = false) :
    requireAuth env req next w
        = next { req with user := d }
            ⟨w.trace ++ [.jwtVerify (str t) env.jwtSecret, .next], w.statusCode⟩
      ∧ (requireAuth env req (fun _ => pure ())).emitted w
        = [.jwtVerify (str t) env.jwtSecret, .next] := by
  have hb : "Bearer " ++ t = "Bearer" ++ " " ++ t := by
    rw [String.append_assoc]; rfl
  have htok : bearerToken ("Bearer " ++ t) = str t := by
    rw [hb]; exact bearerToken_scheme "Bearer" t (by decide) ht
  have hne : "Bearer " ++ t ≠ "" := by
    rw [hb]; exact scheme_header_ne_empty "Bearer" t
  have hv1 : (env.jwtVerify w.trace (bearerToken ("Bearer " ++ t)) env.jwtSecret).1.truthy
      = false := by rw [htok, hv]; exact herr
  constructor
  · rw [requireAuth_run_valid env req next w _ hh hne hv1, htok, hv]
  · rw [Eff.emitted, requireAuth_run_valid env req _ w _ hh hne hv1, htok]
    simp [Outcome.world]

/-- C4 at the token `good`, which the sample token library accepts. -/
theorem requireAuth_valid_token_witness :
    requireAuth sampleEnv ⟨some ("Bearer " ++ "good"), obj [], undefined⟩
          (fun _ => pure ()) (World.fresh [])
        = .ok () ⟨[.jwtVerify (str "good") (str "s3cret"), .next], 200⟩
      ∧ (requireAuth sampleEnv ⟨some ("Bearer " ++ "good"), obj [], undefined⟩
          (fun _ => pure ())).emitted (World.fresh [])
        = [.jwtVerify (str "good") (str "s3cret"), .next] :=
  requireAuth_valid_token sampleEnv _ _ _ "good" null sampleClaims rfl (by decide) rfl rfl

/-! ## C5: the scheme word of the header -/

/-- C5, as stated, fails: the header `Basic good`, which carries a valid
token under another scheme than Bearer, is not rejected; `requireAuth` calls
`next` and sends no response. -/
theorem requireAuth_basic_scheme_accepted :
    requireAuth sampleEnv ⟨some "Basic good", obj [], undefined⟩ (fun _ => pure ())
        (World.fresh [])
      = .ok () ⟨[.jwtVerify (str "good") (str "s3cret"), .next], 200⟩ := rfl

/-- C5, amended: the gate does not look at the scheme word.  For a header
`<scheme> <token>`, with any word for the scheme (Bearer, Basic, also an
empty word), it verifies `<token>`: it answers 403 without calling `next`
when verification fails, and enters `next` once with `req.user` set to the
decoded claims when it succeeds. -/
theorem requireAuth_any_scheme (env : Env) (req : Request) (next : Request → Eff Unit)
    (w : World) (s t : String) (hs : ' ' ∉ s.data) (ht : ' ' ∉ t.data)
    (hh : req.authorization = some (s ++ " " ++ t)) :
    requireAuth env req next w
      = if (env.jwtVerify w.trace (str t) env.jwtSecret).1.truthy then
          .ok () ⟨w.trace ++ [.jwtVerify (str t) env.jwtSecret,
            .resJson 403 (obj [("error", str "Invalid token")])], 403⟩
        else
          next { req with user := (env.jwtVerify w.trace (str t) env.jwtSecret).2 }
            ⟨w.trace ++ [.jwtVerify (str t) env.jwtSecret, .next], w.statusCode⟩ := by
  have htok := bearerToken_scheme s t hs ht
  have hne := scheme_header_ne_empty s t
  cases hv : (env.jwtVerify w.trace (str t) env.jwtSecret).1.truthy with
  | true =>
    rw [requireAuth_run_invalid env req next w _ hh hne (by rw [htok]; exact hv), htok]
    simp
  | false =>
    rw [requireAuth_run_valid env req next w _ hh hne (by rw [htok]; exact hv), htok]
    simp

/-- C5, amended, at the header `Basic good`. -/
theorem requireAuth_any_scheme_witness :
    requireAuth sampleEnv ⟨some ("Basic" ++ " " ++ "good"), obj [], undefined⟩
        (fun _ => pure ()) (World.fresh [])
      = if (sampleEnv.jwtVerify (World.fresh []).trace (str "good")
            sampleEnv.jwtSecret).1.truthy then
          .ok () ⟨(World.fresh []).trace ++ [.jwtVerify (str "good") sampleEnv.jwtSecret,
            .resJson 403 (obj [("error", str "Invalid token")])], 403⟩
        else
          .ok () ⟨(World.fresh []).trace ++ [.jwtVerify (str "good") sampleEnv.jwtSecret,
            .next], (World.fresh []).statusCode⟩ :=
  requireAuth_any_scheme sampleEnv _ _ _ "Basic" "good" (by decide) (by decide) rfl

/-! ## C6: the role claim -/

/-- C6: the gate performs no role check.  Two requests whose tokens both
verify, with decoded claims that differ only in the `role` claim, get the same
decision on every protected route: `requireAuth` sends no response and calls
`next`, which enters the route's handler with `req.user` set to the claims. -/
theorem requireAuth_ignores_role (ep : Endpoint) (env : Env) (req₁ req₂ : Request)
    (w₁ w₂ : World) (h₁ h₂ : String)
    (hh₁ : req₁.authorization = some h₁) (hne₁ : h₁ ≠ "")
    (hh₂ : req₂.authorization = some h₂) (hne₂ : h₂ ≠ "")
    (hv₁ : (env.jwtVerify w₁.trace (bearerToken h₁) env.jwtSecret).1.truthy = false)
    (hv₂ : (env.jwtVerify w₂.trace (bearerToken h₂) env.jwtSecret).1.truthy = false)
    (_hrole : (env.jwtVerify w₁.trace (bearerToken h₁) env.jwtSecret).2.dropProp "role"
      = (env.jwtVerify w₂.trace (bearerToken h₂) env.jwtSecret).2.dropProp "role") :
    route ep env req₁ w₁
        = ep.handler env
            { req₁ with user := (env.jwtVerify w₁.trace (bearerToken h₁) env.jwtSecret).2 }
            ⟨w₁.trace ++ [.jwtVerify (bearerToken h₁) env.jwtSecret, .next], w₁.statusCode⟩
      ∧ route ep env req₂ w₂
        = ep.handler env
            { req₂ with user := (env.jwtVerify w₂.trace (bearerToken h₂) env.jwtSecret).2 }
            ⟨w₂.trace ++ [.jwtVerify (bearerToken h₂) env.jwtSecret, .next], w₂.statusCode⟩ :=
  ⟨requireAuth_run_valid env req₁ _ w₁ h₁ hh₁ hne₁ hv₁,
    requireAuth_run_valid env req₂ _ w₂ h₂ hh₂ hne₂ hv₂⟩
/-- C6 at the enqueue route, for the tokens `user` and `admin`. -/
theorem requireAuth_ignores_role_witness :
    route .enqueue roleEnv ⟨some "Bearer user", obj [], undefined⟩ (World.fresh [])
        = enqueueHandler roleEnv
            ⟨some "Bearer user", obj [], obj [("sub", num 7), ("role", str "authenticated")]⟩
            ⟨[.jwtVerify (str "user") (str "s3cret"), .next], 200⟩
      ∧ route .enqueue roleEnv ⟨some "Bearer admin", obj [], undefined⟩ (World.fresh [])
        = enqueueHandler roleEnv
            ⟨some "Bearer admin", obj [], obj [("sub", num 7), ("role", str "admin")]⟩
            ⟨[.jwtVerify (str "admin") (str "s3cret"), .next], 200⟩ :=
  requireAuth_ignores_role .enqueue roleEnv _ _ _ _ "Bearer user" "Bearer admin"
    rfl (by decide) rfl (by decide) rfl rfl rfl


/-! ## C7: a query request without SQL text -/

/-- C7: an authenticated `POST /api/query` whose body has no `sql` (it reads
`undefined`) or an empty `sql` string is answered with status 400 and the body
`{"error": "SQL required"}`, and `pool.query` is not called. -/
theorem query_without_sql (env : Env) (req : Request) (w : World) (h : String)
    (hh : req.authorization = some h) (hne : h ≠ "")
    (hv : (env.jwtVerify w.trace (bearerToken h) env.jwtSecret).1.truthy = false)
    (hsql : getProp req.body "sql" = .ok undefined ∨ getProp req.body "sql" = .ok (str "")) :
    route .query env req w
        = .ok () ⟨w.trace ++ [.jwtVerify (bearerToken h) env.jwtSecret, .next,
            .resJson 400 (obj [("error", str "SQL required")])], 400⟩
      ∧ ((route .query env req).emitted w).filter Event.isPoolQuery = [] := by
  have hrun : route .query env req w
      = .ok () ⟨w.trace ++ [.jwtVerify (bearerToken h) env.jwtSecret, .next,
          .resJson 400 (obj [("error", str "SQL required")])], 400⟩ := by
    rw [route, requireAuth_run_valid env req _ w h hh hne hv]
    rcases hsql with hsql | hsql
    · simp only [Endpoint.handler]
      rw [queryHandler_run_falsy env { req with user := (env.jwtVerify w.trace (bearerToken h) env.jwtSecret).2 } _ undefined hsql rfl]
      simp
    · simp only [Endpoint.handler]
      rw [queryHandler_run_falsy env { req with user := (env.jwtVerify w.trace (bearerToken h) env.jwtSecret).2 } _ (str "") hsql rfl]
      simp
  refine ⟨hrun, ?_⟩
  simp [Eff.emitted, hrun, Outcome.world, Event.isPoolQuery]

/-- C7 at a body without `sql`. -/
theorem query_without_sql_witness :
    route .query sampleEnv ⟨some "Bearer good", obj [("params", arr [])], undefined⟩
          (World.fresh [])
        = .ok () ⟨[.jwtVerify (str "good") (str "s3cret"), .next,
            .resJson 400 (obj [("error", str "SQL required")])], 400⟩
      ∧ ((route .query sampleEnv
            ⟨some "Bearer good", obj [("params", arr [])], undefined⟩).emitted
          (World.fresh [])).filter Event.isPoolQuery = [] :=
  query_without_sql sampleEnv _ _ "Bearer good" rfl (by decide) rfl (Or.inl rfl)

/-! ## C8: the SQL text and the parameters are passed through -/

/-- C8: an authenticated `POST /api/query` with a non-empty `sql` string makes
exactly one database call: `pool.query(sql, params)` with the request's `sql`
and `params` as they came, whatever the driver then answers. -/
theorem query_passes_sql_through (env : Env) (req : Request) (w : World) (h s : String)
    (params : JsVal)
    (hh : req.authorization = some h) (hne : h ≠ "")
    (hv : (env.jwtVerify w.trace (bearerToken h) env.jwtSecret).1.truthy = false)
    (hsql : getProp req.body "sql" = .ok (str s)) (hs : s ≠ "")
    (hparams : getProp req.body "params" = .ok params) :
    ((route .query env req).emitted w).filter Event.isDatabase
      = [.poolQuery [str s, params]] := by
  have htruthy : (str s).truthy = true := by simp [JsVal.truthy, hs]
  rw [Eff.emitted, route, requireAuth_run_valid env req _ w h hh hne hv]
  simp only [Endpoint.handler]
  have hdb := queryHandler_database env
    { req with user := (env.jwtVerify w.trace (bearerToken h) env.jwtSecret).2 }
    ⟨[.jwtVerify (bearerToken h) env.jwtSecret, .next], w.statusCode⟩ w.trace
    (str s) params hsql hparams htruthy
  simpa [Event.isDatabase] using hdb

/-- C8 at the statement `SELECT 1 as x` with one bind value. -/
theorem query_passes_sql_through_witness :
    ((route .query sampleEnv
        ⟨some "Bearer good", obj [("sql", str "SELECT 1 as x"), ("params", arr [num 5])],
          undefined⟩).emitted (World.fresh [])).filter Event.isDatabase
      = [.poolQuery [str "SELECT 1 as x", arr [num 5]]] :=
  query_passes_sql_through sampleEnv _ _ "Bearer good" "SELECT 1 as x" (arr [num 5])
    rfl (by decide) rfl rfl (by decide) rfl

/-! ## C9: a text of two statements -/

/-- C9, the code at a text of two statements: nothing stops the text, it goes
to the driver in one `pool.query` call; the call succeeds, with an array of
two results, which has no `fields` to map; the handler lands in its catch
block and its only response has status 500: no `rows`, `fields`, `rowCount`
or `duration` is sent. -/
theorem query_multi_statement_response :
    ((route .query multiEnv
          ⟨some "Bearer good", obj [("sql", str "SELECT 1; SELECT 2")], undefined⟩).emitted
        (World.fresh [])).filter Event.isDatabase
        = [.poolQuery [str "SELECT 1; SELECT 2", undefined]]
    ∧ multiEnv.poolQuery [.jwtVerify (str "good") (str "s3cret"), .next, .dateNow 2]
        [str "SELECT 1; SELECT 2", undefined]
      = .ok (arr [sampleResult, sampleResult])
    ∧ ((route .query multiEnv
          ⟨some "Bearer good", obj [("sql", str "SELECT 1; SELECT 2")], undefined⟩).emitted
        (World.fresh [])).filterMap Event.responseStatus = [500] :=
  ⟨rfl, rfl, rfl⟩

/-! ## C10: the length of `rows` and `rowCount` -/

/-- C10, as stated, fails: for an `UPDATE` of three rows without `RETURNING`
the driver accepts the statement, and the successful response has an empty
`rows` and the `rowCount` 3. -/
theorem query_update_rows_rowCount :
    route .query updateEnv
        ⟨some "Bearer good", obj [("sql", str "UPDATE t SET done = true")], undefined⟩
        (World.fresh [])
      = .ok () ⟨[.jwtVerify (str "good") (str "s3cret"), .next, .dateNow 2,
          .poolQuery [str "UPDATE t SET done = true", undefined], .dateNow 4,
          .resJson 200 (obj [("rows", arr []), ("fields", arr []), ("rowCount", num 3),
            ("duration", num 2)])], 200⟩
    ∧ rowsMatchRowCount (obj [("rows", arr []), ("fields", arr []), ("rowCount", num 3),
        ("duration", num 2)]) = false :=
  ⟨rfl, rfl⟩

/-- C10, amended: the successful response carries the `rows` and the
`rowCount` of the driver's result unchanged, so the length of its `rows`
equals its `rowCount` exactly when that holds of the driver's result. -/
theorem query_rows_rowCount_passed_through (env : Env) (req : Request) (w : World) (h : String)
    (sql params : JsVal) (props : List (String × JsVal)) (fs : List JsVal)
    (hh : req.authorization = some h) (hne : h ≠ "")
    (hv : (env.jwtVerify w.trace (bearerToken h) env.jwtSecret).1.truthy = false)
    (hsql : getProp req.body "sql" = .ok sql) (hparams : getProp req.body "params" = .ok params)
    (htruthy : sql.truthy = true)
    (hq : env.poolQuery
        (w.trace ++ [.jwtVerify (bearerToken h) env.jwtSecret, .next,
          .dateNow (env.clock (w.trace ++ [.jwtVerify (bearerToken h) env.jwtSecret, .next]))])
        [sql, params] = .ok (obj props))
    (hfields : lookup "fields" props = arr fs) (hfs : ∀ f ∈ fs, f ≠ undefined ∧ f ≠ null) :
    ∃ body, ((route .query env req).emitted w).filter Event.isResponse
        = [.resJson w.statusCode body]
      ∧ body.prop "rows" = lookup "rows" props
      ∧ body.prop "rowCount" = lookup "rowCount" props
      ∧ rowsMatchRowCount body = rowsMatchRowCount (obj props) := by
  obtain ⟨t₁, ht₁⟩ : ∃ t, env.clock
      (w.trace ++ [.jwtVerify (bearerToken h) env.jwtSecret, .next]) = t := ⟨_, rfl⟩
  rw [ht₁] at hq
  obtain ⟨t₂, ht₂⟩ : ∃ t, env.clock (w.trace ++ [.jwtVerify (bearerToken h) env.jwtSecret,
      .next, .dateNow t₁, .poolQuery [sql, params]]) = t := ⟨_, rfl⟩
  have hrun := queryRoute_run_success env req w h sql params props fs t₁ t₂ hh hne hv hsql
    hparams htruthy ht₁ hq ht₂ hfields hfs
  refine ⟨obj [("rows", lookup "rows" props), ("fields", arr (fs.map nameAndType)),
    ("rowCount", lookup "rowCount" props), ("duration", num (t₂ - t₁))], ?_, ?_, ?_, ?_⟩
  · rw [Eff.emitted, hrun]
    simp [Outcome.world, Event.isResponse]
  · simp [JsVal.prop, JsVal.lookup]
  · simp [JsVal.prop, JsVal.lookup]
  · simp [rowsMatchRowCount, JsVal.prop, JsVal.lookup]

/-- C10, amended, at `SELECT 1 as x`, where one row comes with `rowCount` 1. -/
theorem query_rows_rowCount_passed_through_witness :
    ∃ body, ((route .query sampleEnv
          ⟨some "Bearer good", obj [("sql", str "SELECT 1 as x")], undefined⟩).emitted
        (World.fresh [])).filter Event.isResponse = [.resJson (World.fresh []).statusCode body]
      ∧ body.prop "rows" = lookup "rows"
          [("command", str "SELECT"), ("rowCount", num 1), ("rows", arr [obj [("x", num 1)]]),
            ("fields", arr [obj [("name", str "x"), ("tableID", num 0),
              ("dataTypeID", num 23)]])]
      ∧ body.prop "rowCount" = lookup "rowCount"
          [("command", str "SELECT"), ("rowCount", num 1), ("rows", arr [obj [("x", num 1)]]),
            ("fields", arr [obj [("name", str "x"), ("tableID", num 0),
              ("dataTypeID", num 23)]])]
      ∧ rowsMatchRowCount body = rowsMatchRowCount sampleResult :=
  query_rows_rowCount_passed_through sampleEnv _ (World.fresh []) "Bearer good"
    (str "SELECT 1 as x") undefined _
    [obj [("name", str "x"), ("tableID", num 0), ("dataTypeID", num 23)]]
    rfl (by decide) rfl rfl rfl rfl rfl rfl (by simp)

/-! ## C11: the `fields` of the response to two statements -/

/-- C11, the code at a text of two statements: the driver accepts the text and
returns, for each statement, a result with one column, `x`; the handler's only
response carries no `fields` at all. -/
theorem query_multi_statement_fields :
    multiEnv.poolQuery [.jwtVerify (str "good") (str "s3cret"), .next, .dateNow 2]
        [str "SELECT 1; SELECT 2", undefined]
      = .ok (arr [sampleResult, sampleResult])
    ∧ sampleResult.prop "fields"
      = arr [obj [("name", str "x"), ("tableID", num 0), ("dataTypeID", num 23)]]
    ∧ (((route .query multiEnv
          ⟨some "Bearer good", obj [("sql", str "SELECT 1; SELECT 2")], undefined⟩).emitted
        (World.fresh [])).filterMap Event.responseBody).map (fun body => body.prop "fields")
      = [undefined] :=
  ⟨rfl, rfl, rfl⟩

/-! ## C12: a query the driver rejects -/

/-- C12: when the `pool.query` call of an authenticated `POST /api/query` with
a non-empty (truthy) `sql` fails with an error `e` (a value whose `message` can
be read: anything but `undefined` and `null`), the handler answers with status
500 and the body `{message: e.message}`, and that is its only response: no
rows are sent. -/
theorem query_driver_error (env : Env) (req : Request) (w : World) (h : String)
    (sql params e : JsVal) (t₁ : Int)
    (hh : req.authorization = some h) (hne : h ≠ "")
    (hv : (env.jwtVerify w.trace (bearerToken h) env.jwtSecret).1.truthy = false)
    (hsql : getProp req.body "sql" = .ok sql) (hparams : getProp req.body "params" = .ok params)
    (htruthy : sql.truthy = true)
    (ht₁ : env.clock (w.trace ++ [.jwtVerify (bearerToken h) env.jwtSecret, .next]) = t₁)
    (hq : env.poolQuery
        (w.trace ++ [.jwtVerify (bearerToken h) env.jwtSecret, .next, .dateNow t₁])
        [sql, params] = .error e)
    (he : e ≠ undefined ∧ e ≠ null) :
    route .query env req w
        = .ok () ⟨w.trace ++ [.jwtVerify (bearerToken h) env.jwtSecret, .next, .dateNow t₁,
            .poolQuery [sql, params], .resJson 500 (obj [("message", e.prop "message")])], 500⟩
      ∧ ((route .query env req).emitted w).filter Event.isResponse
        = [.resJson 500 (obj [("message", e.prop "message")])] := by
  have hmsg : getProp e "message" = .ok (e.prop "message") := by
    cases e <;> simp_all [getProp, JsVal.prop]
  have hrun : route .query env req w
      = .ok () ⟨w.trace ++ [.jwtVerify (bearerToken h) env.jwtSecret, .next, .dateNow t₁,
          .poolQuery [sql, params], .resJson 500 (obj [("message", e.prop "message")])],
          500⟩ := by
    rw [route, requireAuth_run_valid env req _ w h hh hne hv]
    simp only [Endpoint.handler]
    rw [queryHandler_run_truthy env
      { req with user := (env.jwtVerify w.trace (bearerToken h) env.jwtSecret).2 } _ sql params
      hsql hparams htruthy]
    simp only [List.append_assoc, List.cons_append, List.nil_append, ht₁, hq]
    simp [sendError, hmsg]
  refine ⟨hrun, ?_⟩
  rw [Eff.emitted, hrun]
  simp [Outcome.world, Event.isResponse]

/-- C12 at a statement on a relation that does not exist. -/
theorem query_driver_error_witness :
    route .query failingQueryEnv
          ⟨some "Bearer good", obj [("sql", str "SELECT * FROM missing")], undefined⟩
          (World.fresh [])
        = .ok () ⟨(World.fresh []).trace ++ [.jwtVerify (bearerToken "Bearer good")
              failingQueryEnv.jwtSecret, .next, .dateNow 2,
            .poolQuery [str "SELECT * FROM missing", undefined],
            .resJson 500 (obj [("message",
              (obj [("name", str "error"),
                ("message", str "relation \"missing\" does not exist")]).prop "message")])],
            500⟩
      ∧ ((route .query failingQueryEnv
            ⟨some "Bearer good", obj [("sql", str "SELECT * FROM missing")], undefined⟩).emitted
          (World.fresh [])).filter Event.isResponse
        = [.resJson 500 (obj [("message",
            (obj [("name", str "error"),
              ("message", str "relation \"missing\" does not exist")]).prop "message")])] :=
  query_driver_error failingQueryEnv _ (World.fresh []) "Bearer good"
    (str "SELECT * FROM missing") undefined _ 2 rfl (by decide) rfl rfl rfl rfl rfl rfl
    (by simp)

/-! ## C13: the job the dispatcher adds -/

@[simp] theorem queueAdd_run (env : Env) (args : List JsVal) (w : World) :
    queueAdd env args w
      = (match env.queueAdd w.trace args with
        | .ok r => .ok r ⟨w.trace ++ [.queueAdd "irondb-jobs" args], w.statusCode⟩
        | .error e => .threw e ⟨w.trace ++ [.queueAdd "irondb-jobs" args], w.statusCode⟩) := rfl

/-- C13, as stated, fails: a request whose task type is the empty string is
enqueued under the name `default`, not under its task type. -/
theorem enqueue_empty_task_type :
    route .enqueue sampleEnv
        ⟨some "Bearer good", obj [("taskType", str ""), ("payload", obj [("n", num 1)])],
          undefined⟩ (World.fresh [])
      = .ok () ⟨[.jwtVerify (str "good") (str "s3cret"), .next,
          .queueAdd "irondb-jobs" [str "default", obj [("n", num 1)], jobOptions],
          .resJson 200 (obj [("status", str "queued"), ("message", str "Task sent to worker")])],
          200⟩ := rfl

/-- C13, amended: for an authenticated `POST /api/enqueue` with a non-empty
(truthy) task type `t` and payload `p` whose queue add succeeds, the handler
adds exactly one job to the queue `irondb-jobs`, with the name `t` and the
data `p` as they came, and then answers `status`: `queued`, `message`:
`Task sent to worker`. -/
theorem enqueue_adds_one_job (env : Env) (req : Request) (w : World) (h : String)
    (t p r : JsVal)
    (hh : req.authorization = some h) (hne : h ≠ "")
    (hv : (env.jwtVerify w.trace (bearerToken h) env.jwtSecret).1.truthy = false)
    (ht : getProp req.body "taskType" = .ok t) (hp : getProp req.body "payload" = .ok p)
    (htruthy : t.truthy = true)
    (hadd : env.queueAdd (w.trace ++ [.jwtVerify (bearerToken h) env.jwtSecret, .next])
        [t, p, jobOptions] = .ok r) :
    route .enqueue env req w
        = .ok () ⟨w.trace ++ [.jwtVerify (bearerToken h) env.jwtSecret, .next,
            .queueAdd "irondb-jobs" [t, p, jobOptions],
            .resJson w.statusCode
              (obj [("status", str "queued"), ("message", str "Task sent to worker")])],
            w.statusCode⟩
      ∧ ((route .enqueue env req).emitted w).filter Event.isQueueAdd
        = [.queueAdd "irondb-jobs" [t, p, jobOptions]] := by
  have hrun : route .enqueue env req w
      = .ok () ⟨w.trace ++ [.jwtVerify (bearerToken h) env.jwtSecret, .next,
          .queueAdd "irondb-jobs" [t, p, jobOptions],
          .resJson w.statusCode
            (obj [("status", str "queued"), ("message", str "Task sent to worker")])],
          w.statusCode⟩ := by
    rw [route, requireAuth_run_valid env req _ w h hh hne hv]
    simp [Endpoint.handler, enqueueHandler, ht, hp, htruthy, hadd]
  refine ⟨hrun, ?_⟩
  rw [Eff.emitted, hrun]
  simp [Outcome.world, Event.isQueueAdd]

/-- C13, amended, at the task type `rpc_trigger`. -/
theorem enqueue_adds_one_job_witness :
    route .enqueue sampleEnv
          ⟨some "Bearer good",
            obj [("taskType", str "rpc_trigger"), ("payload", obj [("n", num 1)])], undefined⟩
          (World.fresh [])
        = .ok () ⟨(World.fresh []).trace ++ [.jwtVerify (bearerToken "Bearer good")
              sampleEnv.jwtSecret, .next,
            .queueAdd "irondb-jobs" [str "rpc_trigger", obj [("n", num 1)], jobOptions],
            .resJson (World.fresh []).statusCode
              (obj [("status", str "queued"), ("message", str "Task sent to worker")])],
            (World.fresh []).statusCode⟩
      ∧ ((route .enqueue sampleEnv
            ⟨some "Bearer good",
              obj [("taskType", str "rpc_trigger"), ("payload", obj [("n", num 1)])],
              undefined⟩).emitted (World.fresh [])).filter Event.isQueueAdd
        = [.queueAdd "irondb-jobs" [str "rpc_trigger", obj [("n", num 1)], jobOptions]] :=
  enqueue_adds_one_job sampleEnv _ (World.fresh []) "Bearer good" (str "rpc_trigger")
    (obj [("n", num 1)]) (obj [("id", str "1")]) rfl (by decide) rfl rfl rfl rfl rfl

/-! ## C14: a queue add that fails -/

/-- C14, the code at a failing queue add: the handler of `POST /api/enqueue`
has no `try`, so the rejected `jobQueue.add` ends the handler with the error
thrown and no response sent: no status 500, no message. -/
theorem enqueue_add_failure_unanswered :
    route .enqueue brokenQueueEnv
        ⟨some "Bearer good", obj [("taskType", str "rpc_trigger"), ("payload", obj [])],
          undefined⟩ (World.fresh [])
      = .threw (obj [("name", str "Error"), ("message", str "Connection is closed.")])
          ⟨[.jwtVerify (str "good") (str "s3cret"), .next,
            .queueAdd "irondb-jobs" [str "rpc_trigger", obj [], jobOptions]], 200⟩ := rfl

/-! ## Running the worker and the sign-in -/

@[simp] theorem Eff.throw_run {α : Type} (e : JsVal) (w : World) :
    (Eff.throw e : Eff α) w = .threw e w := rfl

@[simp] theorem consoleLog_run (args : List JsVal) (w : World) :
    consoleLog args w = .ok () ⟨w.trace ++ [.consoleLog args], w.statusCode⟩ := rfl

@[simp] theorem consoleError_run (args : List JsVal) (w : World) :
    consoleError args w = .ok () ⟨w.trace ++ [.consoleError args], w.statusCode⟩ := rfl

@[simp] theorem sleep_run (ms : Nat) (w : World) :
    sleep ms w = .ok () ⟨w.trace ++ [.sleep ms], w.statusCode⟩ := rfl

@[simp] theorem poolConnect_run (rt : Runtime) (w : World) :
    poolConnect rt w
      = (match rt.poolConnect w.trace with
        | .ok () => .ok () ⟨w.trace ++ [.poolConnect], w.statusCode⟩
        | .error e => .threw e ⟨w.trace ++ [.poolConnect], w.statusCode⟩) := rfl

@[simp] theorem clientQuery_run (rt : Runtime) (args : List JsVal) (w : World) :
    clientQuery rt args w
      = (match rt.clientQuery w.trace args with
        | .ok r => .ok r ⟨w.trace ++ [.clientQuery args], w.statusCode⟩
        | .error e => .threw e ⟨w.trace ++ [.clientQuery args], w.statusCode⟩) := rfl

@[simp] theorem clientRelease_run (w : World) :
    clientRelease w = .ok () ⟨w.trace ++ [.clientRelease], w.statusCode⟩ := rfl

@[simp] theorem cb_run (args : List JsVal) (w : World) :
    cb args w = .ok () ⟨w.trace ++ [.cb args], w.statusCode⟩ := rfl

@[simp] theorem jwtSign_run (rt : Runtime) (args : List JsVal) (w : World) :
    jwtSign rt args w
      = (match rt.jwtSign w.trace args with
        | .ok token => .ok token ⟨w.trace ++ [.jwtSign args], w.statusCode⟩
        | .error e => .threw e ⟨w.trace ++ [.jwtSign args], w.statusCode⟩) := rfl

@[simp] theorem resRedirect_run (url : String) (w : World) :
    resRedirect url w = .ok () ⟨w.trace ++ [.resRedirect url], w.statusCode⟩ := rfl

/-- The processor is its first log line followed by the guarded body. -/
theorem processor_run (rt : Runtime) (job : Job) (w : World) :
    processor rt job w
      = (match jobBody rt job
            ⟨w.trace ++ [.consoleLog [str ("Processing job " ++ job.id ++ ": " ++ job.name)]],
              w.statusCode⟩ with
        | .ok a w' => .ok a w'
        | .threw e w' =>
          .threw e ⟨w'.trace ++ [.consoleError [str ("Job " ++ job.id ++ " failed:"), e]],
            w'.statusCode⟩) := by
  simp only [processor, Eff.bind_run, consoleLog_run, Eff.tryCatch_run]
  cases jobBody rt job
      ⟨w.trace ++ [.consoleLog [str ("Processing job " ++ job.id ++ ": " ++ job.name)]],
        w.statusCode⟩ <;> simp [jobFailed]

/-! ## C15: an `rpc_trigger` job -/

/-- C15: for a job named `rpc_trigger` whose data holds the function name `f`
and `params`, and whose database call does not fail, the processor makes
exactly one database call, the `pool.query` that invokes `f`, and then returns
`{status: 'success'}`. -/
theorem rpc_trigger_calls_once (rt : Runtime) (job : Job) (w : World) (f : String)
    (params r : JsVal) (hname : job.name = "rpc_trigger")
    (hf : getProp job.data "functionName" = .ok (str f))
    (hparams : getProp job.data "params" = .ok params)
    (hq : rt.poolQuery
        (w.trace ++ [.consoleLog [str ("Processing job " ++ job.id ++ ": " ++ job.name)]])
        [str ("SELECT " ++ f ++ "($1)"), arr [params]] = .ok r) :
    processor rt job w
        = .ok (obj [("status", str "success")])
            ⟨w.trace ++ [.consoleLog [str ("Processing job " ++ job.id ++ ": " ++ job.name)],
              .poolQuery [str ("SELECT " ++ f ++ "($1)"), arr [params]],
              .consoleLog [str ("Job " ++ job.id ++ " completed.")]], w.statusCode⟩
      ∧ ((processor rt job).emitted w).filter Event.isDatabase
        = [.poolQuery [str ("SELECT " ++ f ++ "($1)"), arr [params]]] := by
  have hrun : processor rt job w
      = .ok (obj [("status", str "success")])
          ⟨w.trace ++ [.consoleLog [str ("Processing job " ++ job.id ++ ": " ++ job.name)],
            .poolQuery [str ("SELECT " ++ f ++ "($1)"), arr [params]],
            .consoleLog [str ("Job " ++ job.id ++ " completed.")]], w.statusCode⟩ := by
    have hne : ¬ job.name = "bulk_insert" := by rw [hname]; decide
    rw [hname] at hq
    rw [processor_run]
    simp [jobBody, hne, hname, hf, hparams, toText, hq, successResult]
  refine ⟨hrun, ?_⟩
  rw [Eff.emitted, hrun]
  simp [Outcome.world, Event.isDatabase]

/-- C15 at a job that triggers the function `refresh_stats`. -/
theorem rpc_trigger_calls_once_witness :
    processor sampleRuntime
          ⟨"41", "rpc_trigger", obj [("functionName", str "refresh_stats"), ("params", num 3)]⟩
          (World.fresh [])
        = .ok (obj [("status", str "success")])
            ⟨(World.fresh []).trace
              ++ [.consoleLog [str ("Processing job " ++ "41" ++ ": " ++ "rpc_trigger")],
              .poolQuery [str ("SELECT " ++ "refresh_stats" ++ "($1)"), arr [num 3]],
              .consoleLog [str ("Job " ++ "41" ++ " completed.")]],
              (World.fresh []).statusCode⟩
      ∧ ((processor sampleRuntime
            ⟨"41", "rpc_trigger",
              obj [("functionName", str "refresh_stats"), ("params", num 3)]⟩).emitted
          (World.fresh [])).filter Event.isDatabase
        = [.poolQuery [str ("SELECT " ++ "refresh_stats" ++ "($1)"), arr [num 3]]] :=
  rpc_trigger_calls_once sampleRuntime _ (World.fresh []) "refresh_stats" (num 3) sampleResult
    rfl rfl rfl rfl

/-! ## C16: a handler that throws -/

/-- C16: when the handler of a job (the `try` block of the processor) throws
`e`, the processor logs the failure and throws that same `e` to the queue; it
does not return a result. -/
theorem processor_rethrows (rt : Runtime) (job : Job) (w w' : World) (e : JsVal)
    (hbody : jobBody rt job
        ⟨w.trace ++ [.consoleLog [str ("Processing job " ++ job.id ++ ": " ++ job.name)]],
          w.statusCode⟩ = .threw e w') :
    processor rt job w
        = .threw e ⟨w'.trace ++ [.consoleError [str ("Job " ++ job.id ++ " failed:"), e]],
            w'.statusCode⟩
      ∧ (processor rt job w).isThrow = true := by
  have hrun : processor rt job w
      = .threw e ⟨w'.trace ++ [.consoleError [str ("Job " ++ job.id ++ " failed:"), e]],
          w'.statusCode⟩ := by
    rw [processor_run, hbody]
  exact ⟨hrun, by rw [hrun]; rfl⟩

/-- C16 at an `rpc_trigger` job whose `pool.query` fails. -/
theorem processor_rethrows_witness :
    processor failingDbRuntime
          ⟨"41", "rpc_trigger", obj [("functionName", str "refresh_stats"), ("params", num 3)]⟩
          (World.fresh [])
        = .threw (obj [("message", str "function does not exist")])
            ⟨[.consoleLog [str "Processing job 41: rpc_trigger"],
                .poolQuery [str "SELECT refresh_stats($1)", arr [num 3]]]
              ++ [.consoleError [str ("Job " ++ "41" ++ " failed:"),
                obj [("message", str "function does not exist")]]], 200⟩
      ∧ (processor failingDbRuntime
          ⟨"41", "rpc_trigger", obj [("functionName", str "refresh_stats"), ("params", num 3)]⟩
          (World.fresh [])).isThrow = true :=
  processor_rethrows failingDbRuntime _ (World.fresh [])
    ⟨[.consoleLog [str "Processing job 41: rpc_trigger"],
      .poolQuery [str "SELECT refresh_stats($1)", arr [num 3]]], 200⟩ _ rfl

/-! ## C17: a `bulk_insert` job without rows -/

/-- C17: a `bulk_insert` job whose data has an empty row list (and a table
that converts to text, as every string does) completes as success: the
processor returns `{status: 'success'}`, throws nothing, and makes no database
call, so no row is written. -/
theorem bulk_insert_empty_rows (rt : Runtime) (job : Job) (w : World) (table : JsVal)
    (tableText : String) (hname : job.name = "bulk_insert")
    (htable : getProp job.data "table" = .ok table)
    (hrows : getProp job.data "rows" = .ok (arr []))
    (htext : toText rt.render table = .ok tableText) :
    processor rt job w
        = .ok (obj [("status", str "success")])
            ⟨w.trace ++ [.consoleLog [str ("Processing job " ++ job.id ++ ": " ++ job.name)],
              .consoleLog [str ("Simulating bulk insert into " ++ tableText ++ " of " ++ "0"
                ++ " rows")],
              .sleep 2000,
              .consoleLog [str ("Job " ++ job.id ++ " completed.")]], w.statusCode⟩
      ∧ (processor rt job w).isThrow = false
      ∧ ((processor rt job).emitted w).filter Event.isDatabase = [] := by
  have hrun : processor rt job w
      = .ok (obj [("status", str "success")])
          ⟨w.trace ++ [.consoleLog [str ("Processing job " ++ job.id ++ ": " ++ job.name)],
            .consoleLog [str ("Simulating bulk insert into " ++ tableText ++ " of " ++ "0"
              ++ " rows")],
            .sleep 2000,
            .consoleLog [str ("Job " ++ job.id ++ " completed.")]], w.statusCode⟩ := by
    have hzero : toText rt.render (num 0) = .ok "0" := rfl
    rw [processor_run]
    simp [jobBody, hname, htable, hrows, htext, getLength, hzero, successResult]
  refine ⟨hrun, by rw [hrun]; rfl, ?_⟩
  rw [Eff.emitted, hrun]
  simp [Outcome.world, Event.isDatabase]

/-- C17 at a job for the table `events`. -/
theorem bulk_insert_empty_rows_witness :
    processor sampleRuntime ⟨"42", "bulk_insert", obj [("table", str "events"), ("rows", arr [])]⟩
          (World.fresh [])
        = .ok (obj [("status", str "success")])
            ⟨(World.fresh []).trace
              ++ [.consoleLog [str ("Processing job " ++ "42" ++ ": " ++ "bulk_insert")],
              .consoleLog [str ("Simulating bulk insert into " ++ "events" ++ " of " ++ "0"
                ++ " rows")],
              .sleep 2000,
              .consoleLog [str ("Job " ++ "42" ++ " completed.")]], (World.fresh []).statusCode⟩
      ∧ (processor sampleRuntime
          ⟨"42", "bulk_insert", obj [("table", str "events"), ("rows", arr [])]⟩
          (World.fresh [])).isThrow = false
      ∧ ((processor sampleRuntime
            ⟨"42", "bulk_insert", obj [("table", str "events"), ("rows", arr [])]⟩).emitted
          (World.fresh [])).filter Event.isDatabase = [] :=
  bulk_insert_empty_rows sampleRuntime _ (World.fresh []) (str "events") "events" rfl rfl rfl rfl

/-! ## C18: the token of a sign-in -/

/-- The handler signs one token, whatever the token library then does. -/
theorem googleCallbackHandler_sign (rt : Runtime) (req : Request) (w : World) (id email : JsVal)
    (hid : getProp req.user "id" = .ok id) (hemail : getProp req.user "email" = .ok email) :
    ((googleCallbackHandler rt req).emitted w).filter Event.isJwtSign
      = [.jwtSign [tokenPayload id email, rt.jwtSecret, tokenOptions]] := by
  simp only [Eff.emitted, googleCallbackHandler, Eff.bind_run, hid, hemail, Eff.ofExcept_ok,
    jwtSign_run]
  cases rt.jwtSign w.trace [tokenPayload id email, rt.jwtSecret, tokenOptions] with
  | error e => simp [Outcome.world, Event.isJwtSign]
  | ok token =>
    simp only []
    cases toText rt.render (if rt.frontendUrl.truthy = true then rt.frontendUrl else str "/") with
    | error e => simp [Outcome.world, Event.isJwtSign]
    | ok baseText =>
      cases toText rt.render token with
      | error e => simp [Outcome.world, Event.isJwtSign]
      | ok tokenText =>
        cases toText rt.render email with
        | error e => simp [Outcome.world, Event.isJwtSign]
        | ok emailText => simp [Outcome.world, Event.isJwtSign]

/-- C18: for a user record `u` left in `req.user` by a successful sign-in, the
handler of `/auth/google/callback` mints one token: its one `jwt.sign` call
has the payload `sub`: `u.id`, `email`: `u.email`, `role`: `authenticated` and
nothing else, the configured JWT secret as key, and the option `expiresIn`:
`24h`. -/
theorem callback_token_claims (rt : Runtime) (req : Request) (w : World) (u : JsVal)
    (huser : req.user = u) (hu : u ≠ undefined ∧ u ≠ null) :
    ((googleCallbackHandler rt req).emitted w).filter Event.isJwtSign
      = [.jwtSign [obj [("sub", u.prop "id"), ("email", u.prop "email"),
            ("role", str "authenticated")],
          rt.jwtSecret, obj [("expiresIn", str "24h")]]] := by
  have hid : getProp req.user "id" = .ok (u.prop "id") := by
    rw [huser]; cases u <;> simp_all [getProp, JsVal.prop]
  have hemail : getProp req.user "email" = .ok (u.prop "email") := by
    rw [huser]; cases u <;> simp_all [getProp, JsVal.prop]
  exact googleCallbackHandler_sign rt req w _ _ hid hemail

/-- C18 at the sample user. -/
theorem callback_token_claims_witness :
    ((googleCallbackHandler sampleRuntime ⟨none, undefined, sampleUser⟩).emitted
        (World.fresh [])).filter Event.isJwtSign
      = [.jwtSign [obj [("sub", sampleUser.prop "id"), ("email", sampleUser.prop "email"),
            ("role", str "authenticated")],
          sampleRuntime.jwtSecret, obj [("expiresIn", str "24h")]]] :=
  callback_token_claims sampleRuntime _ (World.fresh []) sampleUser rfl
    (by simp [sampleUser])

/-! ## C19: a sign-in whose upsert fails -/

/-- C19: when acquiring the connection fails with `e`, or the upsert statement
fails with `e`, the verify callback calls `cb(e)`, with the error and no user,
and does nothing after it: it signs no token, and the only statement it sent
to the database is the upsert (none when no connection was acquired). -/
theorem signIn_failure_reported (rt : Runtime) (profile : JsVal) (w : World)
    (emails first email googleId e : JsVal)
    (hemails : getProp profile "emails" = .ok emails) (hfirst : getFirst emails = .ok first)
    (hemail : getProp first "value" = .ok email) (hid : getProp profile "id" = .ok googleId) :
    (rt.poolConnect w.trace = .error e →
      (googleVerify rt profile).emitted w = [.poolConnect, .cb [e]])
    ∧ (rt.poolConnect w.trace = .ok () →
      rt.clientQuery (w.trace ++ [.poolConnect]) [str upsertSql, arr [email, googleId]]
        = .error e →
      (googleVerify rt profile).emitted w
        = [.poolConnect, .clientQuery [str upsertSql, arr [email, googleId]],
            .cb [e]]) := by
  constructor
  · intro hc
    simp [Eff.emitted, googleVerify, hemails, hfirst, hemail, hid, upsertUserAndReport, hc,
      Outcome.world]
  · intro hc hq
    simp [Eff.emitted, googleVerify, hemails, hfirst, hemail, hid, upsertUserAndReport, hc, hq,
      Outcome.world]

/-- C19 at a pool without connection and at a database without `users`. -/
theorem signIn_failure_reported_witness :
    (googleVerify noConnectionRuntime sampleProfile).emitted (World.fresh [])
        = [.poolConnect, .cb [obj [("message", str "connect ECONNREFUSED")]]]
      ∧ (googleVerify failingDbRuntime sampleProfile).emitted (World.fresh [])
        = [.poolConnect,
            .clientQuery [str upsertSql, arr [str "ada@example.org", str "g-1"]],
            .cb [obj [("message", str "relation users does not exist")]]] :=
  ⟨(signIn_failure_reported noConnectionRuntime sampleProfile (World.fresh [])
      (arr [obj [("value", str "ada@example.org"), ("verified", bool true)]])
      (obj [("value", str "ada@example.org"), ("verified", bool true)])
      (str "ada@example.org") (str "g-1") (obj [("message", str "connect ECONNREFUSED")])
      rfl rfl rfl rfl).1 rfl,
   (signIn_failure_reported failingDbRuntime sampleProfile (World.fresh [])
      (arr [obj [("value", str "ada@example.org"), ("verified", bool true)]])
      (obj [("value", str "ada@example.org"), ("verified", bool true)])
      (str "ada@example.org") (str "g-1")
      (obj [("message", str "relation users does not exist")])
      rfl rfl rfl rfl).2 rfl rfl⟩

/-! ## C20: signing in twice -/

/-- Touching a row keeps the number of rows and everything but last-sign-in
times, and the row can be touched again, with the same id. -/
theorem touchUser_some (now now' : Int) (email : String) (users users' : List UserRow)
    (u : UserRow) (h : touchUser now email users = some (u, users')) :
    users'.length = users.length
      ∧ users'.map UserRow.sansLastSignIn = users.map UserRow.sansLastSignIn
      ∧ ∃ u' users'', touchUser now' email users' = some (u', users'') ∧ u'.id = u.id := by
  induction users generalizing users' u with
  | nil => simp [touchUser] at h
  | cons r rest ih =>
    by_cases hr : r.email = email
    · subst hr
      simp [touchUser] at h
      obtain ⟨hu, hus⟩ := h
      subst hu hus
      refine ⟨by simp, by simp [UserRow.sansLastSignIn], ?_⟩
      exact ⟨{ r with lastSignIn := some now' }, { r with lastSignIn := some now' } :: rest,
        by simp [touchUser], rfl⟩
    · cases hrest : touchUser now email rest with
      | none => simp [touchUser, hr, hrest] at h
      | some res =>
        obtain ⟨v, rest'⟩ := res
        simp [touchUser, hr, hrest] at h
        obtain ⟨hu, hus⟩ := h
        subst hu hus
        obtain ⟨hlen, hsans, u', rest'', htouch, hid⟩ := ih rest' v hrest
        refine ⟨by simp [hlen], by simp [hsans], ?_⟩
        exact ⟨u', r :: rest'', by simp [touchUser, hr, htouch], hid⟩

/-- A row appended to a table without its email is the one a touch finds. -/
theorem touchUser_append (now now' : Int) (email : String) (users : List UserRow) (r : UserRow)
    (hnone : touchUser now email users = none) (hr : r.email = email) :
    touchUser now' email (users ++ [r])
      = some ({ r with lastSignIn := some now' },
          users ++ [{ r with lastSignIn := some now' }]) := by
  induction users with
  | nil => simp [touchUser, hr]
  | cons x rest ih =>
    by_cases hx : x.email = email
    · simp [touchUser, hx] at hnone
    · cases hrest : touchUser now email rest with
      | some res => simp [touchUser, hx, hrest] at hnone
      | none => simp [touchUser, hx, ih hrest]

/-- After an upsert of an email that the database accepted, a second upsert of
that email is accepted too, whatever Google id and new id it comes with: it
returns a row with the same id, keeps the number of rows and changes
last-sign-in times only. -/
theorem upsertUser_again (now₁ now₂ : Int) (id₁ id₂ email : String) (g₁ g₂ : Option String)
    (users users₁ : List UserRow) (u₁ : UserRow)
    (h₁ : upsertUser now₁ id₁ email g₁ users = .ok (u₁, users₁)) :
    ∃ u₂ users₂, upsertUser now₂ id₂ email g₂ users₁ = .ok (u₂, users₂)
      ∧ u₂.id = u₁.id ∧ users₂.length = users₁.length
      ∧ users₂.map UserRow.sansLastSignIn = users₁.map UserRow.sansLastSignIn := by
  cases ht : touchUser now₁ email users with
  | some res =>
    obtain ⟨u, users'⟩ := res
    simp [upsertUser, ht] at h₁
    obtain ⟨hu, hus⟩ := h₁
    subst hu hus
    obtain ⟨_, _, u', users'', htouch, hid⟩ := touchUser_some now₁ now₂ email users users' u ht
    obtain ⟨hlen, hsans, _⟩ := touchUser_some now₂ now₂ email users' users'' u' htouch
    exact ⟨u', users'', by simp [upsertUser, htouch], hid, hlen, hsans⟩
  | none =>
    have hrow : u₁ = newUser now₁ id₁ email g₁ ∧ users₁ = users ++ [newUser now₁ id₁ email g₁] := by
      simp only [upsertUser, ht] at h₁
      split at h₁
      · simp at h₁
      · split at h₁
        · simp at h₁
        · simp at h₁
          exact ⟨h₁.1.symm, h₁.2.symm⟩
    obtain ⟨hu, hus⟩ := hrow
    subst hu hus
    have htouch := touchUser_append now₁ now₂ email users (newUser now₁ id₁ email g₁) ht rfl
    exact ⟨{ newUser now₁ id₁ email g₁ with lastSignIn := some now₂ },
      users ++ [{ newUser now₁ id₁ email g₁ with lastSignIn := some now₂ }],
      by simp [upsertUser, htouch], rfl, by simp, by simp [UserRow.sansLastSignIn, newUser]⟩

/-- Acquiring a connection leaves the table as it is. -/
theorem usersAfter_poolConnect (uuid : Nat → String) (users : List UserRow)
    (hist : List Event) :
    usersAfter uuid users (hist ++ [.poolConnect]) = usersAfter uuid users hist := by
  simp [usersAfter, usersAt]

/-- The table after a history that ends with an accepted sign-in. -/
theorem usersAfter_signIn (uuid : Nat → String) (users users₁ : List UserRow)
    (hist : List Event) (email : String) (googleId user : JsVal) (g : Option String)
    (u : UserRow) (hg : bindText googleId = some g)
    (hup : upsertUser (hist.length + 1) (uuid (hist.length + 1)) email g
      (usersAfter uuid users hist) = .ok (u, users₁)) :
    usersAfter uuid users (hist ++ [.poolConnect,
        .clientQuery [str upsertSql, arr [str email, googleId]], .clientRelease,
        .cb [null, user]]) = users₁ := by
  have hup' : upsertUser (hist.length + 1) (uuid (hist.length + 1)) email g
      (usersAt uuid users hist.reverse) = .ok (u, users₁) := hup
  simp [usersAfter, usersAt, hg, hup']

/-- One accepted sign-in against the table `users`: the connection, the
upsert, the release, and the row handed to `cb`. -/
theorem googleVerify_usersDb (uuid : Nat → String) (users users₁ : List UserRow)
    (profile : JsVal) (w : World) (emails first googleId : JsVal) (email : String)
    (g : Option String) (u : UserRow)
    (hemails : getProp profile "emails" = .ok emails) (hfirst : getFirst emails = .ok first)
    (hemail : getProp first "value" = .ok (str email))
    (hid : getProp profile "id" = .ok googleId) (hg : bindText googleId = some g)
    (hup : upsertUser (w.trace.length + 1) (uuid (w.trace.length + 1)) email g
      (usersAfter uuid users w.trace) = .ok (u, users₁)) :
    googleVerify (usersDb uuid users) profile w
      = .ok () ⟨w.trace ++ [.poolConnect,
          .clientQuery [str upsertSql, arr [str email, googleId]], .clientRelease,
          .cb [null, u.toJs]], w.statusCode⟩ := by
  have hc : (usersDb uuid users).poolConnect w.trace = .ok () := rfl
  have hq : (usersDb uuid users).clientQuery (w.trace ++ [.poolConnect])
      [str upsertSql, arr [str email, googleId]] = .ok (upsertResult u) := by
    simp [usersDb, hg, usersAfter_poolConnect, hup]
  simp only [googleVerify, Eff.bind_run, hemails, hfirst, hemail, hid, Eff.ofExcept_ok,
    Eff.tryCatch_run, upsertUserAndReport, poolConnect_run, hc, clientQuery_run, hq,
    clientRelease_run]
  simp [upsertResult, getProp, JsVal.lookup, getFirst]

/-- The answer of the database to the upsert statement. -/
theorem usersDb_clientQuery (uuid : Nat → String) (users : List UserRow) (hist : List Event)
    (email : String) (googleId : JsVal) :
    (usersDb uuid users).clientQuery hist [str upsertSql, arr [str email, googleId]]
      = (match bindText googleId with
        | some g =>
          match upsertUser hist.length (uuid hist.length) email g
              (usersAfter uuid users hist) with
          | .ok res => .ok (upsertResult res.1)
          | .error e => .error e
        | none => .error notModelled) := by
  simp [usersDb]

/-- What an accepted upsert says about the table. -/
theorem usersDb_accepts (uuid : Nat → String) (users : List UserRow) (hist : List Event)
    (email : String) (googleId res : JsVal)
    (hq : (usersDb uuid users).clientQuery (hist ++ [.poolConnect])
      [str upsertSql, arr [str email, googleId]] = .ok res) :
    ∃ g u users₁, bindText googleId = some g
      ∧ upsertUser (hist.length + 1) (uuid (hist.length + 1)) email g
          (usersAfter uuid users hist) = .ok (u, users₁) := by
  rw [usersDb_clientQuery, usersAfter_poolConnect] at hq
  cases hg : bindText googleId with
  | none =>
    rw [hg] at hq
    cases hq
  | some g =>
    rw [hg] at hq
    simp only [List.length_append, List.length_singleton, Nat.cast_add, Nat.cast_one] at hq
    cases hup : upsertUser (hist.length + 1) (uuid (hist.length + 1)) email g
        (usersAfter uuid users hist) with
    | error e =>
      rw [hup] at hq
      cases hq
    | ok res' =>
      obtain ⟨u, users₁⟩ := res'
      exact ⟨g, u, users₁, rfl, hup⟩

/-- A sign-in whose upsert the database refuses: the connection, the upsert,
and the error handed to `cb`. -/
theorem googleVerify_usersDb_refused (uuid : Nat → String) (users : List UserRow)
    (profile : JsVal) (w : World) (emails first googleId e : JsVal) (email : String)
    (g : Option String)
    (hemails : getProp profile "emails" = .ok emails) (hfirst : getFirst emails = .ok first)
    (hemail : getProp first "value" = .ok (str email))
    (hid : getProp profile "id" = .ok googleId) (hg : bindText googleId = some g)
    (hup : upsertUser (w.trace.length + 1) (uuid (w.trace.length + 1)) email g
      (usersAfter uuid users w.trace) = .error e) :
    googleVerify (usersDb uuid users) profile w
      = .ok () ⟨w.trace ++ [.poolConnect,
          .clientQuery [str upsertSql, arr [str email, googleId]], .cb [e]],
          w.statusCode⟩ := by
  have hc : (usersDb uuid users).poolConnect w.trace = .ok () := rfl
  have hq : (usersDb uuid users).clientQuery (w.trace ++ [.poolConnect])
      [str upsertSql, arr [str email, googleId]] = .error e := by
    rw [usersDb_clientQuery, usersAfter_poolConnect, hg]
    simp only [List.length_append, List.length_singleton, Nat.cast_add, Nat.cast_one]
    rw [hup]
  simp only [googleVerify, Eff.bind_run, hemails, hfirst, hemail, hid, Eff.ofExcept_ok,
    Eff.tryCatch_run, upsertUserAndReport, poolConnect_run, hc, clientQuery_run, hq]
  simp

/-- The table after a history that ends with a refused sign-in. -/
theorem usersAfter_refused (uuid : Nat → String) (users : List UserRow) (hist : List Event)
    (email : String) (googleId e e' : JsVal) (g : Option String)
    (hg : bindText googleId = some g)
    (hup : upsertUser (hist.length + 1) (uuid (hist.length + 1)) email g
      (usersAfter uuid users hist) = .error e) :
    usersAfter uuid users (hist ++ [.poolConnect,
        .clientQuery [str upsertSql, arr [str email, googleId]], .cb [e']])
      = usersAfter uuid users hist := by
  have hup' : upsertUser (hist.length + 1) (uuid (hist.length + 1)) email g
      (usersAt uuid users hist.reverse) = .error e := hup
  simp [usersAfter, usersAt, hg, hup']

/-- The world after an accepted sign-in. -/
theorem signIn_world (uuid : Nat → String) (users users₁ : List UserRow) (profile : JsVal)
    (w : World) (emails first googleId : JsVal) (email : String) (g : Option String)
    (u : UserRow)
    (hemails : getProp profile "emails" = .ok emails) (hfirst : getFirst emails = .ok first)
    (hemail : getProp first "value" = .ok (str email))
    (hid : getProp profile "id" = .ok googleId) (hg : bindText googleId = some g)
    (hup : upsertUser (w.trace.length + 1) (uuid (w.trace.length + 1)) email g
      (usersAfter uuid users w.trace) = .ok (u, users₁)) :
    signIn uuid users profile w
      = ⟨w.trace ++ [.poolConnect,
          .clientQuery [str upsertSql, arr [str email, googleId]], .clientRelease,
          .cb [null, u.toJs]], w.statusCode⟩ := by
  rw [signIn, googleVerify_usersDb uuid users users₁ profile w emails first googleId email g u
    hemails hfirst hemail hid hg hup]
  rfl

/-- C20, as stated, fails on the table of the setup script, where `google_id`
is unique too: the table holds ada@example.org with the Google id `g-1`, and
the identity (eve@example.org, `g-1`) signs in twice.  The email is new, the
insert is refused for the Google id, and both times `cb` gets the error and no
user row. -/
theorem signIn_google_id_taken :
    (googleVerify (usersDb sampleUuid adaOnly) eveProfile).emitted (World.fresh [])
        = [.poolConnect,
            .clientQuery [str upsertSql, arr [str "eve@example.org", str "g-1"]],
            .cb [uniqueViolation "users_google_id_key"]]
      ∧ (googleVerify (usersDb sampleUuid adaOnly) eveProfile).emitted
          (signIn sampleUuid adaOnly eveProfile (World.fresh []))
        = [.poolConnect,
            .clientQuery [str upsertSql, arr [str "eve@example.org", str "g-1"]],
            .cb [uniqueViolation "users_google_id_key"]] := by
  have hrun₁ := googleVerify_usersDb_refused sampleUuid adaOnly eveProfile (World.fresh [])
    (arr [obj [("value", str "eve@example.org")]]) (obj [("value", str "eve@example.org")])
    (str "g-1") (uniqueViolation "users_google_id_key") "eve@example.org" (some "g-1")
    rfl rfl rfl rfl rfl rfl
  have hw₁ : signIn sampleUuid adaOnly eveProfile (World.fresh [])
      = ⟨[.poolConnect,
          .clientQuery [str upsertSql, arr [str "eve@example.org", str "g-1"]],
          .cb [uniqueViolation "users_google_id_key"]], 200⟩ := by
    rw [signIn, hrun₁]
    rfl
  have htable : usersAfter sampleUuid adaOnly
      ([] ++ [.poolConnect,
        .clientQuery [str upsertSql, arr [str "eve@example.org", str "g-1"]],
        .cb [uniqueViolation "users_google_id_key"]]) = adaOnly :=
    usersAfter_refused sampleUuid adaOnly [] "eve@example.org" (str "g-1")
      (uniqueViolation "users_google_id_key") _ (some "g-1") rfl rfl
  have hrun₂ := googleVerify_usersDb_refused sampleUuid adaOnly eveProfile
    ⟨[.poolConnect,
      .clientQuery [str upsertSql, arr [str "eve@example.org", str "g-1"]],
      .cb [uniqueViolation "users_google_id_key"]], 200⟩
    (arr [obj [("value", str "eve@example.org")]]) (obj [("value", str "eve@example.org")])
    (str "g-1") (uniqueViolation "users_google_id_key") "eve@example.org" (some "g-1")
    rfl rfl rfl rfl rfl (by
      have h := htable
      simp only [List.nil_append] at h
      rw [h]
      rfl)
  constructor
  · rw [Eff.emitted, hrun₁]
    simp [Outcome.world, World.fresh]
  · rw [hw₁, Eff.emitted, hrun₂]
    simp [Outcome.world]

/-- C20, amended: on the table `users` of the setup script, when the database
accepts the upsert of the first sign-in, signing in twice with the same
external identity (the same profile: same email, same provider id) hands `cb`
a user row with the same id both times; the second sign-in leaves the number
of rows as the first left it and changes last-sign-in times only. -/
theorem signIn_twice_same_user (uuid : Nat → String) (users : List UserRow) (profile : JsVal)
    (w : World) (emails first googleId res : JsVal) (email : String)
    (hemails : getProp profile "emails" = .ok emails) (hfirst : getFirst emails = .ok first)
    (hemail : getProp first "value" = .ok (str email))
    (hid : getProp profile "id" = .ok googleId)
    (haccept : (usersDb uuid users).clientQuery (w.trace ++ [.poolConnect])
      [str upsertSql, arr [str email, googleId]] = .ok res) :
    ∃ u₁ u₂ : UserRow,
      (googleVerify (usersDb uuid users) profile).emitted w
        = [.poolConnect, .clientQuery [str upsertSql, arr [str email, googleId]],
            .clientRelease, .cb [null, u₁.toJs]]
      ∧ (googleVerify (usersDb uuid users) profile).emitted (signIn uuid users profile w)
        = [.poolConnect, .clientQuery [str upsertSql, arr [str email, googleId]],
            .clientRelease, .cb [null, u₂.toJs]]
      ∧ u₂.id = u₁.id
      ∧ (usersAfter uuid users
          (signIn uuid users profile (signIn uuid users profile w)).trace).length
        = (usersAfter uuid users (signIn uuid users profile w).trace).length
      ∧ (usersAfter uuid users
          (signIn uuid users profile (signIn uuid users profile w)).trace).map
            UserRow.sansLastSignIn
        = (usersAfter uuid users (signIn uuid users profile w).trace).map
            UserRow.sansLastSignIn := by
  obtain ⟨g, u₁, users₁, hg, hup₁⟩ := usersDb_accepts uuid users w.trace email googleId res haccept
  have hrun₁ := googleVerify_usersDb uuid users users₁ profile w emails first googleId email g u₁
    hemails hfirst hemail hid hg hup₁
  have hw₁ := signIn_world uuid users users₁ profile w emails first googleId email g u₁
    hemails hfirst hemail hid hg hup₁
  have htable₁ : usersAfter uuid users (signIn uuid users profile w).trace = users₁ := by
    rw [hw₁]
    exact usersAfter_signIn uuid users users₁ w.trace email googleId _ g u₁ hg hup₁
  obtain ⟨u₂, users₂, hup₂, hsame, hlen, hsans⟩ := upsertUser_again
    (w.trace.length + 1) ((signIn uuid users profile w).trace.length + 1)
    (uuid (w.trace.length + 1)) (uuid ((signIn uuid users profile w).trace.length + 1))
    email g g (usersAfter uuid users w.trace) users₁ u₁ hup₁
  rw [← htable₁] at hup₂
  have hrun₂ := googleVerify_usersDb uuid users users₂ profile (signIn uuid users profile w)
    emails first googleId email g u₂ hemails hfirst hemail hid hg hup₂
  have hw₂ := signIn_world uuid users users₂ profile (signIn uuid users profile w) emails first
    googleId email g u₂ hemails hfirst hemail hid hg hup₂
  have htable₂ : usersAfter uuid users
      (signIn uuid users profile (signIn uuid users profile w)).trace = users₂ := by
    rw [hw₂]
    exact usersAfter_signIn uuid users users₂ _ email googleId _ g u₂ hg hup₂
  refine ⟨u₁, u₂, ?_, ?_, hsame, ?_, ?_⟩
  · rw [Eff.emitted, hrun₁]
    simp [Outcome.world]
  · rw [Eff.emitted, hrun₂]
    simp [Outcome.world]
  · rw [htable₂, htable₁]; exact hlen
  · rw [htable₂, htable₁]; exact hsans

/-- C20, amended, at the sample profile and an empty table: the first sign-in
inserts the row, the second finds it. -/
theorem signIn_twice_same_user_witness :
    ∃ u₁ u₂ : UserRow,
      (googleVerify (usersDb sampleUuid []) sampleProfile).emitted (World.fresh [])
        = [.poolConnect,
            .clientQuery [str upsertSql, arr [str "ada@example.org", str "g-1"]],
            .clientRelease, .cb [null, u₁.toJs]]
      ∧ (googleVerify (usersDb sampleUuid []) sampleProfile).emitted
          (signIn sampleUuid [] sampleProfile (World.fresh []))
        = [.poolConnect,
            .clientQuery [str upsertSql, arr [str "ada@example.org", str "g-1"]],
            .clientRelease, .cb [null, u₂.toJs]]
      ∧ u₂.id = u₁.id
      ∧ (usersAfter sampleUuid [] (signIn sampleUuid [] sampleProfile
            (signIn sampleUuid [] sampleProfile (World.fresh []))).trace).length
        = (usersAfter sampleUuid [] (signIn sampleUuid [] sampleProfile
            (World.fresh [])).trace).length
      ∧ (usersAfter sampleUuid [] (signIn sampleUuid [] sampleProfile
            (signIn sampleUuid [] sampleProfile (World.fresh []))).trace).map
              UserRow.sansLastSignIn
        = (usersAfter sampleUuid [] (signIn sampleUuid [] sampleProfile
            (World.fresh [])).trace).map UserRow.sansLastSignIn :=
  signIn_twice_same_user sampleUuid [] sampleProfile (World.fresh [])
    (arr [obj [("value", str "ada@example.org"), ("verified", bool true)]])
    (obj [("value", str "ada@example.org"), ("verified", bool true)]) (str "g-1")
    (upsertResult (newUser 1 (sampleUuid 1) "ada@example.org" (some "g-1")))
    "ada@example.org" rfl rfl rfl rfl (by rw [usersDb_clientQuery]; rfl)

/-! ## C21: the SQL text of an `rpc_trigger` job -/

/-- C21: for an `rpc_trigger` job whose data holds the function name `f` and
`params`, the one statement the worker sends is the text `SELECT ` followed by
`f` as it came, not validated and not quoted, followed by `($1)`, with the
bind list `[params]`: `params` is the only bind parameter.  This holds whether
the database then accepts the statement or not. -/
theorem rpc_trigger_sql_text (rt : Runtime) (job : Job) (w : World) (f : String)
    (params : JsVal) (hname : job.name = "rpc_trigger")
    (hf : getProp job.data "functionName" = .ok (str f))
    (hparams : getProp job.data "params" = .ok params) :
    ((processor rt job).emitted w).filter Event.isDatabase
      = [.poolQuery [str ("SELECT " ++ f ++ "($1)"), arr [params]]] := by
  have hne : ¬ job.name = "bulk_insert" := by rw [hname]; decide
  rw [Eff.emitted, processor_run]
  cases hq : rt.poolQuery
      (w.trace ++ [.consoleLog [str ("Processing job " ++ job.id ++ ": " ++ "rpc_trigger")]])
      [str ("SELECT " ++ f ++ "($1)"), arr [params]] with
  | ok r =>
    simp [jobBody, hne, hname, hf, hparams, toText, hq, Outcome.world, Event.isDatabase]
  | error e =>
    simp [jobBody, hne, hname, hf, hparams, toText, hq, Outcome.world, Event.isDatabase]

/-- C21 at a function name that carries SQL of its own: it reaches the
database verbatim. -/
theorem rpc_trigger_sql_text_witness :
    ((processor sampleRuntime
        ⟨"7", "rpc_trigger",
          obj [("functionName", str "now(); DROP TABLE users; SELECT abs"),
            ("params", num 1)]⟩).emitted (World.fresh [])).filter Event.isDatabase
      = [.poolQuery [str ("SELECT " ++ "now(); DROP TABLE users; SELECT abs" ++ "($1)"),
          arr [num 1]]] :=
  rpc_trigger_sql_text sampleRuntime _ (World.fresh []) "now(); DROP TABLE users; SELECT abs"
    (num 1) rfl rfl rfl

/-! ## C25: a job of another name -/

/-- C25: for a job whose name is neither `bulk_insert` nor `rpc_trigger`, the
name `default` included, the processor writes its two log lines, makes no
database call and returns `{status: 'success'}`, whatever the data. -/
theorem other_job_succeeds (rt : Runtime) (job : Job) (w : World)
    (hbulk : job.name ≠ "bulk_insert") (hrpc : job.name ≠ "rpc_trigger") :
    processor rt job w
        = .ok (obj [("status", str "success")])
            ⟨w.trace ++ [.consoleLog [str ("Processing job " ++ job.id ++ ": " ++ job.name)],
              .consoleLog [str ("Job " ++ job.id ++ " completed.")]], w.statusCode⟩
      ∧ ((processor rt job).emitted w).filter Event.isDatabase = [] := by
  have hrun : processor rt job w
      = .ok (obj [("status", str "success")])
          ⟨w.trace ++ [.consoleLog [str ("Processing job " ++ job.id ++ ": " ++ job.name)],
            .consoleLog [str ("Job " ++ job.id ++ " completed.")]], w.statusCode⟩ := by
    rw [processor_run]
    simp [jobBody, hbulk, hrpc, successResult]
  refine ⟨hrun, ?_⟩
  rw [Eff.emitted, hrun]
  simp [Outcome.world, Event.isDatabase]

/-- C25 at a job named `default` without data. -/
theorem other_job_succeeds_witness :
    processor sampleRuntime ⟨"8", "default", undefined⟩ (World.fresh [])
        = .ok (obj [("status", str "success")])
            ⟨(World.fresh []).trace
              ++ [.consoleLog [str ("Processing job " ++ "8" ++ ": " ++ "default")],
              .consoleLog [str ("Job " ++ "8" ++ " completed.")]], (World.fresh []).statusCode⟩
      ∧ ((processor sampleRuntime ⟨"8", "default", undefined⟩).emitted
          (World.fresh [])).filter Event.isDatabase = [] :=
  other_job_succeeds sampleRuntime ⟨"8", "default", undefined⟩ (World.fresh [])
    (by decide) (by decide)

/-! ## C22: a `bulk_insert` job -/

/-- The length of an array converts to its decimal digits. -/
theorem toText_length (render : JsVal → Except JsVal String) (xs : List JsVal)
    (hlen : xs.length < 2 ^ 32) :
    toText render (num xs.length) = .ok (toString (xs.length : Int)) := by
  have h : (xs.length : Int).natAbs < 2 ^ 53 := by
    rw [Int.natAbs_ofNat]
    exact Nat.lt_trans hlen (by norm_num)
  simp only [toText]
  rw [if_pos h]

/-- C22: for a `bulk_insert` job, whatever its data, the processor makes no
database call.  When the data carries a row list (an array, of fewer than
2^32 elements as every array) and a table that converts to text (as every
string does), the processor only logs and sleeps and then returns
`{status: 'success'}`. -/
theorem bulk_insert_only_logs (rt : Runtime) (job : Job) (w : World)
    (hname : job.name = "bulk_insert") :
    ((processor rt job).emitted w).filter Event.isDatabase = []
      ∧ ∀ (table : JsVal) (rows : List JsVal) (tableText : String),
          getProp job.data "table" = .ok table → getProp job.data "rows" = .ok (arr rows) →
          rows.length < 2 ^ 32 → toText rt.render table = .ok tableText →
          processor rt job w
            = .ok (obj [("status", str "success")])
                ⟨w.trace ++ [.consoleLog [str ("Processing job " ++ job.id ++ ": " ++ job.name)],
                  .consoleLog [str ("Simulating bulk insert into " ++ tableText ++ " of "
                    ++ toString (rows.length : Int) ++ " rows")],
                  .sleep 2000,
                  .consoleLog [str ("Job " ++ job.id ++ " completed.")]], w.statusCode⟩ := by
  constructor
  · rw [Eff.emitted, processor_run]
    cases ht : getProp job.data "table" with
    | error e => simp [jobBody, hname, ht, Outcome.world, Event.isDatabase]
    | ok table =>
      obtain ⟨rows, hr⟩ := getProp_ok_of_ok ht "rows"
      cases htt : toText rt.render table with
      | error e => simp [jobBody, hname, ht, hr, htt, Outcome.world, Event.isDatabase]
      | ok tableText =>
        cases hl : getLength rows with
        | error e => simp [jobBody, hname, ht, hr, htt, hl, Outcome.world, Event.isDatabase]
        | ok len =>
          cases hlt : toText rt.render len with
          | error e =>
            simp [jobBody, hname, ht, hr, htt, hl, hlt, Outcome.world, Event.isDatabase]
          | ok lenText =>
            simp [jobBody, hname, ht, hr, htt, hl, hlt, Outcome.world, Event.isDatabase]
  · intro table rows tableText ht hr hlen htt
    rw [processor_run]
    simp [jobBody, hname, ht, hr, htt, getLength, toText_length rt.render rows hlen,
      successResult]

/-- C22 at a job with two rows for the table `events`. -/
theorem bulk_insert_only_logs_witness :
    ((processor sampleRuntime
          ⟨"42", "bulk_insert",
            obj [("table", str "events"), ("rows", arr [obj [("a", num 1)], obj [("a", num 2)]])]⟩
        ).emitted (World.fresh [])).filter Event.isDatabase = []
      ∧ processor sampleRuntime
          ⟨"42", "bulk_insert",
            obj [("table", str "events"), ("rows", arr [obj [("a", num 1)], obj [("a", num 2)]])]⟩
          (World.fresh [])
        = .ok (obj [("status", str "success")])
            ⟨(World.fresh []).trace
              ++ [.consoleLog [str ("Processing job " ++ "42" ++ ": " ++ "bulk_insert")],
              .consoleLog [str ("Simulating bulk insert into " ++ "events" ++ " of "
                ++ toString (([obj [("a", num 1)], obj [("a", num 2)]] : List JsVal).length : Int)
                ++ " rows")],
              .sleep 2000,
              .consoleLog [str ("Job " ++ "42" ++ " completed.")]], (World.fresh []).statusCode⟩ :=
  ⟨(bulk_insert_only_logs sampleRuntime _ (World.fresh []) rfl).1,
   (bulk_insert_only_logs sampleRuntime
      ⟨"42", "bulk_insert",
        obj [("table", str "events"), ("rows", arr [obj [("a", num 1)], obj [("a", num 2)]])]⟩
      (World.fresh []) rfl).2 (str "events") _ "events" rfl rfl (by decide) rfl⟩

/-! ## C23 and C26: the name and the options of an enqueued job -/

/-- The handler of `POST /api/enqueue` on a body that can be read: one
`jobQueue.add`, then the response if the add succeeded. -/
theorem enqueueHandler_run (env : Env) (req : Request) (w : World) (t p : JsVal)
    (ht : getProp req.body "taskType" = .ok t) (hp : getProp req.body "payload" = .ok p) :
    enqueueHandler env req w
      = (match env.queueAdd w.trace
            [if t.truthy then t else str "default", p, jobOptions] with
        | .ok _ =>
          .ok () ⟨w.trace ++ [.queueAdd "irondb-jobs"
              [if t.truthy then t else str "default", p, jobOptions],
            .resJson w.statusCode
              (obj [("status", str "queued"), ("message", str "Task sent to worker")])],
            w.statusCode⟩
        | .error e =>
          .threw e ⟨w.trace ++ [.queueAdd "irondb-jobs"
            [if t.truthy then t else str "default", p, jobOptions]], w.statusCode⟩) := by
  cases hadd : env.queueAdd w.trace [if t.truthy then t else str "default", p, jobOptions] <;>
    simp [enqueueHandler, ht, hp, hadd]

/-- Every `jobQueue.add` of the enqueue route is the one of the handler. -/
theorem enqueueRoute_adds (env : Env) (req : Request) (w : World) (ev : Event)
    (hev : ev ∈ (route .enqueue env req).emitted w) (hadd : ev.isQueueAdd = true) :
    ∃ t p, getProp req.body "taskType" = .ok t ∧ getProp req.body "payload" = .ok p
      ∧ ev = .queueAdd "irondb-jobs" [if t.truthy then t else str "default", p, jobOptions] := by
  rw [Eff.emitted, route] at hev
  cases hh : req.authorization with
  | none =>
    rw [requireAuth_run_missing env req _ _ (Or.inl hh)] at hev
    simp [Outcome.world] at hev
    subst hev
    simp [Event.isQueueAdd] at hadd
  | some h =>
    by_cases hne : h = ""
    · subst hne
      rw [requireAuth_run_missing env req _ _ (Or.inr hh)] at hev
      simp [Outcome.world] at hev
      subst hev
      simp [Event.isQueueAdd] at hadd
    · cases hv : (env.jwtVerify w.trace (bearerToken h) env.jwtSecret).1.truthy with
      | true =>
        rw [requireAuth_run_invalid env req _ w h hh hne hv] at hev
        simp [Outcome.world] at hev
        rcases hev with hev | hev <;> subst hev <;> simp [Event.isQueueAdd] at hadd
      | false =>
        rw [requireAuth_run_valid env req _ w h hh hne hv] at hev
        simp only [Endpoint.handler] at hev
        cases ht : getProp req.body "taskType" with
        | error e =>
          simp [enqueueHandler, ht, Outcome.world] at hev
          rcases hev with hev | hev <;> subst hev <;> simp [Event.isQueueAdd] at hadd
        | ok t =>
          obtain ⟨p, hp⟩ := getProp_ok_of_ok ht "payload"
          rw [enqueueHandler_run env
            { req with user := (env.jwtVerify w.trace (bearerToken h) env.jwtSecret).2 } _ t p
            ht hp] at hev
          refine ⟨t, p, rfl, hp, ?_⟩
          split at hev
          · simp [Outcome.world] at hev
            rcases hev with hev | hev | hev | hev
            · subst hev; simp [Event.isQueueAdd] at hadd
            · subst hev; simp [Event.isQueueAdd] at hadd
            · exact hev
            · subst hev; simp [Event.isQueueAdd] at hadd
          · simp [Outcome.world] at hev
            rcases hev with hev | hev | hev
            · subst hev; simp [Event.isQueueAdd] at hadd
            · subst hev; simp [Event.isQueueAdd] at hadd
            · exact hev

/-- C23: every job the dispatcher adds, whatever the request, is added to the
queue `irondb-jobs` with the same options: `removeOnComplete`: `true` and
`removeOnFail`: 5000. -/
theorem enqueue_fixed_options (env : Env) (req : Request) (w : World) (ev : Event)
    (hev : ev ∈ (route .enqueue env req).emitted w) (hadd : ev.isQueueAdd = true) :
    ∃ name data, ev = .queueAdd "irondb-jobs"
      [name, data, obj [("removeOnComplete", bool true), ("removeOnFail", num 5000)]] := by
  obtain ⟨t, p, _, _, hev'⟩ := enqueueRoute_adds env req w ev hev hadd
  exact ⟨_, p, hev'⟩

/-- C23 at a request for a `bulk_insert` job. -/
theorem enqueue_fixed_options_witness :
    ∃ name data, Event.queueAdd "irondb-jobs"
        [str "bulk_insert", obj [("table", str "events")], jobOptions]
      = .queueAdd "irondb-jobs"
          [name, data, obj [("removeOnComplete", bool true), ("removeOnFail", num 5000)]] :=
  enqueue_fixed_options sampleEnv
    ⟨some "Bearer good",
      obj [("taskType", str "bulk_insert"), ("payload", obj [("table", str "events")])],
      undefined⟩ (World.fresh []) _ (by
      have hrun : (route .enqueue sampleEnv
          ⟨some "Bearer good",
            obj [("taskType", str "bulk_insert"), ("payload", obj [("table", str "events")])],
            undefined⟩).emitted (World.fresh [])
          = [.jwtVerify (str "good") (str "s3cret"), .next,
              .queueAdd "irondb-jobs"
                [str "bulk_insert", obj [("table", str "events")], jobOptions],
              .resJson 200
                (obj [("status", str "queued"), ("message", str "Task sent to worker")])] := by
        rfl
      rw [hrun]
      simp) rfl

/-- C26: an authenticated `POST /api/enqueue` makes one `jobQueue.add`; the
job's name is `default` when `taskType` is missing or empty (falsy), and the
`taskType` as it came when it is non-empty (truthy). -/
theorem enqueue_job_name (env : Env) (req : Request) (w : World) (h : String) (t p : JsVal)
    (hh : req.authorization = some h) (hne : h ≠ "")
    (hv : (env.jwtVerify w.trace (bearerToken h) env.jwtSecret).1.truthy = false)
    (ht : getProp req.body "taskType" = .ok t) (hp : getProp req.body "payload" = .ok p) :
    (t.truthy = false →
      ((route .enqueue env req).emitted w).filter Event.isQueueAdd
        = [.queueAdd "irondb-jobs" [str "default", p, jobOptions]])
    ∧ (t.truthy = true →
      ((route .enqueue env req).emitted w).filter Event.isQueueAdd
        = [.queueAdd "irondb-jobs" [t, p, jobOptions]]) := by
  have hadds : ((route .enqueue env req).emitted w).filter Event.isQueueAdd
      = [.queueAdd "irondb-jobs" [if t.truthy then t else str "default", p, jobOptions]] := by
    rw [Eff.emitted, route, requireAuth_run_valid env req _ w h hh hne hv]
    simp only [Endpoint.handler]
    rw [enqueueHandler_run env
      { req with user := (env.jwtVerify w.trace (bearerToken h) env.jwtSecret).2 } _ t p ht hp]
    split <;> simp [Outcome.world, Event.isQueueAdd]
  constructor
  · intro hfalsy
    rw [hadds]
    simp [hfalsy]
  · intro htruthy
    rw [hadds]
    simp [htruthy]

/-- C26 at a body without `taskType` and at the task type `send_emails`. -/
theorem enqueue_job_name_witness :
    ((route .enqueue sampleEnv
          ⟨some "Bearer good", obj [("payload", num 1)], undefined⟩).emitted
        (World.fresh [])).filter Event.isQueueAdd
        = [.queueAdd "irondb-jobs" [str "default", num 1, jobOptions]]
      ∧ ((route .enqueue sampleEnv
          ⟨some "Bearer good", obj [("taskType", str "send_emails"), ("payload", num 1)],
            undefined⟩).emitted (World.fresh [])).filter Event.isQueueAdd
        = [.queueAdd "irondb-jobs" [str "send_emails", num 1, jobOptions]] :=
  ⟨(enqueue_job_name sampleEnv ⟨some "Bearer good", obj [("payload", num 1)], undefined⟩
      (World.fresh []) "Bearer good" undefined (num 1) rfl (by decide) rfl rfl rfl).1 rfl,
   (enqueue_job_name sampleEnv
      ⟨some "Bearer good", obj [("taskType", str "send_emails"), ("payload", num 1)], undefined⟩
      (World.fresh []) "Bearer good" (str "send_emails") (num 1) rfl (by decide) rfl rfl
      rfl).2 rfl⟩

/-! ## C27: the release of the connection -/

/-- C27: in the verify callback of the sign-in, with a connection acquired
from the pool, the client is released exactly once when the upsert query
succeeds (whatever the result then holds) and not at all when the upsert query
fails: it is released if and only if the query succeeds. -/
theorem client_released_iff_query_succeeds (rt : Runtime) (profile : JsVal) (w : World)
    (emails first email googleId : JsVal)
    (hemails : getProp profile "emails" = .ok emails) (hfirst : getFirst emails = .ok first)
    (hemail : getProp first "value" = .ok email) (hid : getProp profile "id" = .ok googleId)
    (hc : rt.poolConnect w.trace = .ok ()) :
    (∀ res, rt.clientQuery (w.trace ++ [.poolConnect]) [str upsertSql, arr [email, googleId]]
        = .ok res →
      ((googleVerify rt profile).emitted w).filter Event.isClientRelease = [.clientRelease])
    ∧ (∀ e, rt.clientQuery (w.trace ++ [.poolConnect]) [str upsertSql, arr [email, googleId]]
        = .error e →
      ((googleVerify rt profile).emitted w).filter Event.isClientRelease = []) := by
  constructor
  · intro res hq
    cases hrows : getProp res "rows" with
    | error e =>
      simp [Eff.emitted, googleVerify, hemails, hfirst, hemail, hid, upsertUserAndReport, hc, hq,
        hrows, Outcome.world, Event.isClientRelease]
    | ok rows =>
      cases huser : getFirst rows with
      | error e =>
        simp [Eff.emitted, googleVerify, hemails, hfirst, hemail, hid, upsertUserAndReport, hc,
          hq, hrows, huser, Outcome.world, Event.isClientRelease]
      | ok user =>
        simp [Eff.emitted, googleVerify, hemails, hfirst, hemail, hid, upsertUserAndReport, hc,
          hq, hrows, huser, Outcome.world, Event.isClientRelease]
  · intro e hq
    simp [Eff.emitted, googleVerify, hemails, hfirst, hemail, hid, upsertUserAndReport, hc, hq,
      Outcome.world, Event.isClientRelease]

/-- C27 at a database that answers the upsert and at one that rejects it. -/
theorem client_released_iff_query_succeeds_witness :
    ((googleVerify sampleRuntime sampleProfile).emitted (World.fresh [])).filter
          Event.isClientRelease = [.clientRelease]
      ∧ ((googleVerify failingDbRuntime sampleProfile).emitted (World.fresh [])).filter
          Event.isClientRelease = [] :=
  ⟨(client_released_iff_query_succeeds sampleRuntime sampleProfile (World.fresh [])
      (arr [obj [("value", str "ada@example.org"), ("verified", bool true)]])
      (obj [("value", str "ada@example.org"), ("verified", bool true)])
      (str "ada@example.org") (str "g-1") rfl rfl rfl rfl rfl).1 _ rfl,
   (client_released_iff_query_succeeds failingDbRuntime sampleProfile (World.fresh [])
      (arr [obj [("value", str "ada@example.org"), ("verified", bool true)]])
      (obj [("value", str "ada@example.org"), ("verified", bool true)])
      (str "ada@example.org") (str "g-1") rfl rfl rfl rfl rfl).2 _ rfl⟩

/-! ## C24: the round trip of a job -/

/-- Whatever the job, the `try` block of the processor adds at most one
database call to the log, and when it returns it returns
`{status: 'success'}`. -/
theorem jobBody_summary (rt : Runtime) (job : Job) (w : World) :
    ∃ added : List Event, (added.filter Event.isDatabase).length ≤ 1
      ∧ ((∃ e, jobBody rt job w = .threw e ⟨w.trace ++ added, w.statusCode⟩)
        ∨ jobBody rt job w = .ok successResult ⟨w.trace ++ added, w.statusCode⟩) := by
  by_cases hbulk : job.name = "bulk_insert"
  · cases ht : getProp job.data "table" with
    | error e => exact ⟨[], by simp, Or.inl ⟨e, by simp [jobBody, hbulk, ht]⟩⟩
    | ok table =>
      obtain ⟨rows, hr⟩ := getProp_ok_of_ok ht "rows"
      cases htt : toText rt.render table with
      | error e => exact ⟨[], by simp, Or.inl ⟨e, by simp [jobBody, hbulk, ht, hr, htt]⟩⟩
      | ok tableText =>
        cases hl : getLength rows with
        | error e =>
          exact ⟨[], by simp, Or.inl ⟨e, by simp [jobBody, hbulk, ht, hr, htt, hl]⟩⟩
        | ok len =>
          cases hlt : toText rt.render len with
          | error e =>
            exact ⟨[], by simp, Or.inl ⟨e, by simp [jobBody, hbulk, ht, hr, htt, hl, hlt]⟩⟩
          | ok lenText =>
            exact ⟨[.consoleLog [str ("Simulating bulk insert into " ++ tableText ++ " of "
                ++ lenText ++ " rows")], .sleep 2000,
                .consoleLog [str ("Job " ++ job.id ++ " completed.")]],
              by simp [Event.isDatabase],
              Or.inr (by simp [jobBody, hbulk, ht, hr, htt, hl, hlt])⟩
  · by_cases hrpc : job.name = "rpc_trigger"
    · cases hf : getProp job.data "functionName" with
      | error e => exact ⟨[], by simp, Or.inl ⟨e, by simp [jobBody, hbulk, hrpc, hf]⟩⟩
      | ok fn =>
        obtain ⟨params, hp⟩ := getProp_ok_of_ok hf "params"
        cases hft : toText rt.render fn with
        | error e =>
          exact ⟨[], by simp, Or.inl ⟨e, by simp [jobBody, hbulk, hrpc, hf, hp, hft]⟩⟩
        | ok fnText =>
          cases hq : rt.poolQuery w.trace [str ("SELECT " ++ fnText ++ "($1)"), arr [params]] with
          | error e =>
            exact ⟨[.poolQuery [str ("SELECT " ++ fnText ++ "($1)"), arr [params]]],
              by simp [Event.isDatabase],
              Or.inl ⟨e, by simp [jobBody, hbulk, hrpc, hf, hp, hft, hq]⟩⟩
          | ok r =>
            exact ⟨[.poolQuery [str ("SELECT " ++ fnText ++ "($1)"), arr [params]],
                .consoleLog [str ("Job " ++ job.id ++ " completed.")]],
              by simp [Event.isDatabase],
              Or.inr (by simp [jobBody, hbulk, hrpc, hf, hp, hft, hq])⟩
    · exact ⟨[.consoleLog [str ("Job " ++ job.id ++ " completed.")]],
        by simp [Event.isDatabase], Or.inr (by simp [jobBody, hbulk, hrpc])⟩

/-- One run of the processor makes at most one database call, and a run that
does not throw returns `{status: 'success'}`. -/
theorem processor_summary (rt : Runtime) (job : Job) (w : World) :
    (((processor rt job).emitted w).filter Event.isDatabase).length ≤ 1
      ∧ ((processor rt job w).isThrow = false →
          processor rt job w = .ok successResult (processor rt job w).world) := by
  obtain ⟨added, hdb, hrun⟩ := jobBody_summary rt job
    ⟨w.trace ++ [.consoleLog [str ("Processing job " ++ job.id ++ ": " ++ job.name)]],
      w.statusCode⟩
  rw [Eff.emitted, processor_run]
  rcases hrun with ⟨e, hrun⟩ | hrun
  · rw [hrun]
    refine ⟨?_, ?_⟩
    · simpa [Outcome.world, List.filter_append, Event.isDatabase] using hdb
    · intro hthrow
      simp [Outcome.isThrow] at hthrow
  · rw [hrun]
    refine ⟨?_, ?_⟩
    · simpa [Outcome.world, List.filter_append, Event.isDatabase] using hdb
    · intro _
      rfl

/-- While no job is queued, a turn of the worker changes nothing. -/
theorem workerTurn_idle (rt : Runtime) (queue : List Tracked) (w : World)
    (hidle : ∀ t ∈ queue, t.isQueued = false) : workerTurn rt queue w = (queue, w) := by
  induction queue with
  | nil => rfl
  | cons t rest ih =>
    have ht := hidle t (by simp)
    have hrest := ih (fun u hu => hidle u (by simp [hu]))
    simp [workerTurn, ht, hrest]

/-- While no job is queued, the worker changes nothing. -/
theorem workerTurns_idle (rt : Runtime) (n : Nat) (queue : List Tracked) (w : World)
    (hidle : ∀ t ∈ queue, t.isQueued = false) : workerTurns rt n queue w = (queue, w) := by
  induction n with
  | zero => rfl
  | succ n ih => simp [workerTurns, workerTurn_idle rt queue w hidle, ih]

/-- C24: an authenticated request enqueues a job named `name` with data `p`,
the add succeeds, and the worker then processes the job without failure.
However many turns the worker takes, the job passes through queued,
processing, success exactly once: the processor is entered for it once (the
log ends with that one run), returns `{status: 'success'}`, and the run holds
at most one database call, which no later turn repeats. -/
theorem round_trip_once (env : Env) (rt : Runtime) (req : Request) (w : World) (h name : String)
    (p r : JsVal) (id : String) (turns : Nat)
    (hh : req.authorization = some h) (hne : h ≠ "")
    (hv : (env.jwtVerify w.trace (bearerToken h) env.jwtSecret).1.truthy = false)
    (ht : getProp req.body "taskType" = .ok (str name)) (hname : name ≠ "")
    (hp : getProp req.body "payload" = .ok p)
    (hadd : env.queueAdd (w.trace ++ [.jwtVerify (bearerToken h) env.jwtSecret, .next])
        [str name, p, jobOptions] = .ok r)
    (hok : (processor rt ⟨id, name, p⟩ (enqueued env req w)).isThrow = false)
    (hturns : 0 < turns) :
    roundTrip env rt req id turns w
        = ([⟨⟨id, name, p⟩, [.queued, .processing, .success]⟩],
            (processor rt ⟨id, name, p⟩ (enqueued env req w)).world)
      ∧ processor rt ⟨id, name, p⟩ (enqueued env req w)
        = .ok (obj [("status", str "success")])
            (processor rt ⟨id, name, p⟩ (enqueued env req w)).world
      ∧ (((processor rt ⟨id, name, p⟩).emitted (enqueued env req w)).filter
          Event.isDatabase).length ≤ 1 := by
  have htruthy : (str name).truthy = true := by simp [JsVal.truthy, hname]
  have hrun : route .enqueue env req w
      = .ok () ⟨w.trace ++ [.jwtVerify (bearerToken h) env.jwtSecret, .next,
          .queueAdd "irondb-jobs" [str name, p, jobOptions],
          .resJson w.statusCode
            (obj [("status", str "queued"), ("message", str "Task sent to worker")])],
          w.statusCode⟩ := by
    rw [route, requireAuth_run_valid env req _ w h hh hne hv]
    simp only [Endpoint.handler]
    rw [enqueueHandler_run env
      { req with user := (env.jwtVerify w.trace (bearerToken h) env.jwtSecret).2 } _ (str name)
      p ht hp]
    simp [htruthy, hadd]
  have hworld : enqueued env req w
      = ⟨w.trace ++ [.jwtVerify (bearerToken h) env.jwtSecret, .next,
          .queueAdd "irondb-jobs" [str name, p, jobOptions],
          .resJson w.statusCode
            (obj [("status", str "queued"), ("message", str "Task sent to worker")])],
          w.statusCode⟩ := by
    rw [enqueued, hrun]
    rfl
  obtain ⟨hdb, hres⟩ := processor_summary rt ⟨id, name, p⟩ (enqueued env req w)
  have hsuccess := hres hok
  refine ⟨?_, hsuccess, hdb⟩
  obtain ⟨m, rfl⟩ : ∃ m, turns = m + 1 := ⟨turns - 1, by omega⟩
  have hsuccess' := hsuccess
  rw [roundTrip, hrun]
  rw [hworld] at hsuccess' ⊢
  have hqueue : List.filterMap (Tracked.added id)
      (List.drop w.trace.length
        (w.trace ++ [Event.jwtVerify (bearerToken h) env.jwtSecret, Event.next,
          Event.queueAdd "irondb-jobs" [str name, p, jobOptions],
          Event.resJson w.statusCode
            (obj [("status", str "queued"), ("message", str "Task sent to worker")])]))
      = [⟨⟨id, name, p⟩, [.queued]⟩] := by
    simp [Tracked.added]
  simp only []
  rw [hqueue, workerTurns]
  have hturn : workerTurn rt [⟨⟨id, name, p⟩, [.queued]⟩]
        ⟨w.trace ++ [.jwtVerify (bearerToken h) env.jwtSecret, .next,
          .queueAdd "irondb-jobs" [str name, p, jobOptions],
          .resJson w.statusCode
            (obj [("status", str "queued"), ("message", str "Task sent to worker")])],
          w.statusCode⟩
      = ([⟨⟨id, name, p⟩, [.queued, .processing, .success]⟩],
          (processor rt ⟨id, name, p⟩
            ⟨w.trace ++ [.jwtVerify (bearerToken h) env.jwtSecret, .next,
              .queueAdd "irondb-jobs" [str name, p, jobOptions],
              .resJson w.statusCode
                (obj [("status", str "queued"), ("message", str "Task sent to worker")])],
              w.statusCode⟩).world) := by
    simp only [workerTurn]
    rw [hsuccess']
    simp [Tracked.isQueued, Outcome.world]
  rw [hturn]
  exact workerTurns_idle rt m _ _ (by simp [Tracked.isQueued])

/-- C24 at an `rpc_trigger` job and three turns of the worker. -/
theorem round_trip_once_witness :
    roundTrip sampleEnv sampleRuntime
          ⟨some "Bearer good",
            obj [("taskType", str "rpc_trigger"),
              ("payload", obj [("functionName", str "refresh_stats"), ("params", num 3)])],
            undefined⟩ "41" 3 (World.fresh [])
        = ([⟨⟨"41", "rpc_trigger",
              obj [("functionName", str "refresh_stats"), ("params", num 3)]⟩,
              [.queued, .processing, .success]⟩],
            (processor sampleRuntime
              ⟨"41", "rpc_trigger",
                obj [("functionName", str "refresh_stats"), ("params", num 3)]⟩
              (enqueued sampleEnv
                ⟨some "Bearer good",
                  obj [("taskType", str "rpc_trigger"),
                    ("payload", obj [("functionName", str "refresh_stats"), ("params", num 3)])],
                  undefined⟩ (World.fresh []))).world)
      ∧ processor sampleRuntime
          ⟨"41", "rpc_trigger", obj [("functionName", str "refresh_stats"), ("params", num 3)]⟩
          (enqueued sampleEnv
            ⟨some "Bearer good",
              obj [("taskType", str "rpc_trigger"),
                ("payload", obj [("functionName", str "refresh_stats"), ("params", num 3)])],
              undefined⟩ (World.fresh []))
        = .ok (obj [("status", str "success")])
            (processor sampleRuntime
              ⟨"41", "rpc_trigger",
                obj [("functionName", str "refresh_stats"), ("params", num 3)]⟩
              (enqueued sampleEnv
                ⟨some "Bearer good",
                  obj [("taskType", str "rpc_trigger"),
                    ("payload", obj [("functionName", str "refresh_stats"), ("params", num 3)])],
                  undefined⟩ (World.fresh []))).world
      ∧ (((processor sampleRuntime
            ⟨"41", "rpc_trigger",
              obj [("functionName", str "refresh_stats"), ("params", num 3)]⟩).emitted
          (enqueued sampleEnv
            ⟨some "Bearer good",
              obj [("taskType", str "rpc_trigger"),
                ("payload", obj [("functionName", str "refresh_stats"), ("params", num 3)])],
              undefined⟩ (World.fresh []))).filter Event.isDatabase).length ≤ 1 :=
  round_trip_once sampleEnv sampleRuntime _ (World.fresh []) "Bearer good" "rpc_trigger"
    (obj [("functionName", str "refresh_stats"), ("params", num 3)]) (obj [("id", str "1")])
    "41" 3 rfl (by decide) rfl rfl (by decide) rfl rfl rfl (by decide)


end IronDB
